import Mathlib

set_option maxRecDepth 20000

/-!
Verification development for the II Command Center automation engine
(src/O-code/ii.js): command grammar, action dispatch, tab orchestration,
URL embedding, and the loop/chain/parallel schedulers.

JavaScript strings are modelled as lists of characters (Str below); the
regular expressions of the source are modelled by explicit leftmost-match
scanning functions with the same semantics; fallible handlers return
Except, mirroring throw; DOM and timer side effects are modelled as pure
data (tab table, pending timer records, refresh interval records).
-/

abbrev Str := List Char

instance {ε α : Type} [DecidableEq ε] [DecidableEq α] : DecidableEq (Except ε α) := fun a b =>
  match a, b with
  | .error x, .error y =>
    if h : x = y then .isTrue (by rw [h]) else .isFalse (by intro hc; cases hc; exact h rfl)
  | .error _, .ok _ => .isFalse (by intro hc; cases hc)
  | .ok _, .error _ => .isFalse (by intro hc; cases hc)
  | .ok x, .ok y =>
    if h : x = y then .isTrue (by rw [h]) else .isFalse (by intro hc; cases hc; exact h rfl)

/-- Whitespace test used by JS trim and the regex whitespace class (ASCII part;
exotic Unicode spaces are out of scope for the command language). -/
def jsIsSpace (c : Char) : Bool :=
  c = ' ' || c = '\t' || c = '\n' || c = '\r' || c = '\x0b' || c = '\x0c'

/-- Word-character test of the regex word class: letters, digits, underscore. -/
def isWordChar (c : Char) : Bool := c.isAlphanum || c = '_'

/-- JS toLowerCase, restricted to the ASCII range used by the command language. -/
def toLowerStr (s : Str) : Str := s.map Char.toLower

/-- JS String.prototype.trim: strip whitespace from both ends. -/
def jsTrim (s : Str) : Str :=
  ((s.dropWhile jsIsSpace).reverse.dropWhile jsIsSpace).reverse

/-- The window of length sub.length starting at position i of s equals sub. -/
def MatchAt (s sub : Str) (i : Nat) : Prop := (s.drop i).take sub.length = sub

instance (s sub : Str) (i : Nat) : Decidable (MatchAt s sub i) := by
  unfold MatchAt; exact inferInstance

/-- Some window of s equals sub. -/
def OccursIn (s sub : Str) : Prop := ∃ i, MatchAt s sub i

/-- Boolean asserting that s begins with p. -/
def StartsWithB (s p : Str) : Bool := decide (s.take p.length = p)

/-- Proposition that s begins with p. -/
def StartsWith (s p : Str) : Prop := s.take p.length = p

/-- Proposition that s ends with p. -/
def EndsWith (s p : Str) : Prop := s.drop (s.length - p.length) = p

instance (s p : Str) : Decidable (StartsWith s p) := by
  unfold StartsWith; exact inferInstance

instance (s p : Str) : Decidable (EndsWith s p) := by
  unfold EndsWith; exact inferInstance

/-- Index of the leftmost occurrence of sub in s, if any (JS indexOf). -/
def firstIdx : Str → Str → Option Nat
  | s, sub =>
    if s.take sub.length = sub then some 0
    else
      match s with
      | [] => none
      | _ :: t => (firstIdx t sub).map (· + 1)

/-- JS String.prototype.includes. -/
def jsIncludes (s sub : Str) : Bool := (firstIdx s sub).isSome

/-- Worker for jsSplit: repeatedly cut at the leftmost separator occurrence.
The structural fuel argument is only a termination device; jsSplit supplies
fuel larger than the string length, which reproduces the JS behaviour. -/
def splitGo (sep : Str) : Nat → Str → List Str
  | 0, s => [s]
  | fuel + 1, s =>
    match firstIdx s sep with
    | none => [s]
    | some i => s.take i :: splitGo sep fuel (s.drop (i + sep.length))

/-- JS String.prototype.split with a string separator. -/
def jsSplit (s sep : Str) : List Str :=
  if sep = [] then s.map (fun c => [c]) else splitGo sep (s.length + 1) s

/-- JS array indexing arr[i] for the string lists produced by split. All uses in
the source are guarded so that the element exists or is compared against the
empty string, where undefined and the empty string behave alike; the default
value is therefore the empty string. -/
def jsGetD (l : List Str) (i : Nat) : Str := l.getD i []

def hexDigitVal (c : Char) : Nat :=
  if c.isDigit then c.toNat - 48
  else if 'a' ≤ c && c ≤ 'f' then c.toNat - 87
  else c.toNat - 55

def isHexDigit (c : Char) : Bool :=
  c.isDigit || ('a' ≤ c && c ≤ 'f') || ('A' ≤ c && c ≤ 'F')

/-- Numeric value of a digit string in the given base. -/
def natOfDigits (base : Nat) (ds : Str) : Nat :=
  ds.foldl (fun a c => a * base + hexDigitVal c) 0

/-- JS parseInt with unspecified radix: skip leading whitespace, optional sign,
a 0x prefix selects base 16, then the maximal digit run; none models NaN. -/
def jsParseInt (s : Str) : Option Int :=
  let t := s.dropWhile jsIsSpace
  let signed : Bool × Str :=
    match t with
    | '-' :: r => (true, r)
    | '+' :: r => (false, r)
    | _ => (false, t)
  let based : Nat × Str :=
    match signed.2 with
    | '0' :: 'x' :: r => (16, r)
    | '0' :: 'X' :: r => (16, r)
    | _ => (10, signed.2)
  let ds := if based.1 = 16 then based.2.takeWhile isHexDigit
            else based.2.takeWhile Char.isDigit
  if ds = [] then none
  else some (if signed.1 then -(natOfDigits based.1 ds : Int) else (natOfDigits based.1 ds : Int))

/-- Decimal rendering of a natural number, as JS template interpolation does. -/
def natToStr (n : Nat) : Str := (Nat.repr n).data

/-- Decimal rendering of an integer. -/
def intToStr (i : Int) : Str :=
  if i < 0 then '-' :: natToStr i.natAbs else natToStr i.natAbs

-- ===== Command Grammar (parseAndExecute, source 311-331) =====

structure ParsedCommand where
  iiName : Str
  action : Str
  params : Str
deriving DecidableEq, Repr

/-- Anchored case-insensitive agent alternation of source line 313; the matched
name is lower-cased as on line 316. -/
def matchAgent (command : Str) : Option Str :=
  if toLowerStr (command.take 6) = "raitha".data then some ("raitha".data)
  else if toLowerStr (command.take 4) = "rena".data then some ("rena".data)
  else if toLowerStr (command.take 4) = "leaf".data then some ("leaf".data)
  else none

def headIsWord : Str → Bool
  | [] => false
  | c :: _ => isWordChar c

/-- Action match of source line 319: leftmost position where Ex followed by a dot
(case-insensitively) is followed by at least one word character; the capture is
the maximal word-character run, lower-cased as on line 322. -/
def findAction : Str → Option Str
  | [] => none
  | c :: t =>
    if toLowerStr ((c :: t).take 3) = "ex.".data && headIsWord ((c :: t).drop 3) then
      some (toLowerStr (((c :: t).drop 3).takeWhile isWordChar))
    else findAction t

/-- Last character of t that is not a newline, if any. -/
def lastNonNlHead (t : Str) : Option Char :=
  match t.reverse.dropWhile (· = '\n') with
  | [] => none
  | c :: _ => some c

/-- Behaviour of the regex tail, greedy whitespace then one-or-more non-newline
characters with backtracking, applied to the text after a double dash: when a
non-whitespace character exists the capture starts there; when the text is all
whitespace the greedy star backtracks one character so the capture is the last
character not equal to a newline. -/
def paramsCapture (t : Str) : Option Str :=
  let ws := (t.takeWhile jsIsSpace).length
  if ws < t.length then some ((t.drop ws).takeWhile (· ≠ '\n'))
  else (lastNonNlHead t).map (fun c => [c])

/-- Params match of source line 325: leftmost position where a double dash is
followed by a successful capture. -/
def findParams : Str → Option Str
  | [] => none
  | c :: t =>
    if (c :: t).take 2 = "--".data then
      match paramsCapture ((c :: t).drop 2) with
      | some cap => some cap
      | none => findParams t
    else findParams t

/-- Parse phase of parseAndExecute (source 311-328). -/
def parseCommand (command : Str) : Except Str ParsedCommand :=
  match matchAgent command with
  | none => .error ("Command must start with II name".data)
  | some iiName =>
    match findAction command with
    | none => .error ("Invalid action format. Use: Ex.[action]".data)
    | some action =>
      match findParams command with
      | none => .error ("Missing parameters. Use: -- [params]".data)
      | some p => .ok ⟨iiName, action, jsTrim p⟩

/-- Spec reading of the agent rule: the line starts, case-insensitively, with
one of the three agent names. -/
def specAgentOk (line : Str) : Prop :=
  toLowerStr (line.take 6) = ("raitha".data) ∨
  toLowerStr (line.take 4) = ("rena".data) ∨
  toLowerStr (line.take 4) = ("leaf".data)

/-- Spec reading of an action occurrence at position j: the text at j reads
Ex. case-insensitively and is followed by a word character. -/
def specActionAt (line : Str) (j : Nat) : Prop :=
  toLowerStr ((line.drop j).take 3) = ("ex.".data) ∧
  headIsWord ((line.drop j).drop 3) = true

/-- Spec reading of the action rule: the line contains an Ex.<identifier>
substring somewhere. -/
def specActionOk (line : Str) : Prop := ∃ j, specActionAt line j

/-- Spec reading of the params rule: the line contains a double dash followed
by a non-empty remainder. -/
def specParamsOk (line : Str) : Prop :=
  ∃ a b, line = a ++ ("--".data) ++ b ∧ b ≠ []

-- ===== Action parameter sub-grammars =====

/-- Regex of the form one-or-more, dot, digits, end: the maximal digit suffix,
the dot before it, and the nonempty remainder before the dot. -/
def parse2 (s : Str) : Option (Str × Str) :=
  let ds := (s.reverse.takeWhile Char.isDigit).reverse
  let r := s.take (s.length - ds.length)
  if ds = [] then none
  else
    match r.reverse with
    | '.' :: u => if u = [] then none else some (u.reverse, ds)
    | _ => none

/-- Regex with two trailing dot-digit groups: applies parse2 twice. -/
def parse3 (s : Str) : Option (Str × Str × Str) :=
  match parse2 s with
  | none => none
  | some (r1, d2) =>
    match parse2 r1 with
    | none => none
    | some (u, d1) => some (u, d1, d2)

/-- Optional trailing sec or min unit group before the end anchor. -/
def stripUnit (s : Str) : Str × Option Str :=
  if s.drop (s.length - 3) = "sec".data then (s.take (s.length - 3), some ("sec".data))
  else if s.drop (s.length - 3) = "min".data then (s.take (s.length - 3), some ("min".data))
  else (s, none)

/-- Regex with two greedy one-or-more groups around a dot: splits at the last
dot that leaves both sides nonempty. -/
def parseLastDot (s : Str) : Option (Str × Str) :=
  match s.reverse with
  | [] => none
  | c0 :: rest =>
    let m := rest.takeWhile (· ≠ '.')
    match rest.drop m.length with
    | [] => none
    | _ :: before =>
      if before = [] then none else some (before.reverse, (c0 :: m).reverse)

/-- Case-insensitive daily, weekly or hourly suffix of the schedule grammar;
returns the remaining text and the lower-cased repeat keyword. -/
def stripRepeat (s : Str) : Option (Str × Str) :=
  if toLowerStr (s.drop (s.length - 5)) = "daily".data then
    some (s.take (s.length - 5), "daily".data)
  else if toLowerStr (s.drop (s.length - 6)) = "weekly".data then
    some (s.take (s.length - 6), "weekly".data)
  else if toLowerStr (s.drop (s.length - 6)) = "hourly".data then
    some (s.take (s.length - 6), "hourly".data)
  else none

-- ===== URL Classifier (isValidStreamingUrl, source 758-789) =====

/-- Facebook video pattern with a wildcard middle: an occurrence of the site
marker followed, without an intervening newline, by a videos path segment. -/
def facebookPat (s : Str) : Bool :=
  ((jsSplit s ("facebook.com/".data)).drop 1).any
    (fun rest => jsIncludes (rest.takeWhile (· ≠ '\n')) ("/videos/".data))

/-- TikTok video pattern with a wildcard middle. -/
def tiktokPat (s : Str) : Bool :=
  ((jsSplit s ("tiktok.com/@".data)).drop 1).any
    (fun rest => jsIncludes (rest.takeWhile (· ≠ '\n')) ("/video/".data))

def isValidStreamingUrl (url : Str) : Bool :=
  jsIncludes url ("youtube.com/watch?v=".data) ||
  jsIncludes url ("youtu.be/".data) ||
  jsIncludes url ("youtube.com/live/".data) ||
  jsIncludes url ("youtube.com/embed/".data) ||
  jsIncludes url ("twitch.tv/".data) ||
  jsIncludes url ("twitch.tv/videos/".data) ||
  jsIncludes url ("vimeo.com/".data) ||
  jsIncludes url ("player.vimeo.com/".data) ||
  jsIncludes url ("dailymotion.com/video/".data) ||
  jsIncludes url ("dai.ly/".data) ||
  facebookPat url ||
  jsIncludes url ("fb.watch/".data) ||
  jsIncludes url ("instagram.com/p/".data) ||
  jsIncludes url ("instagram.com/reel/".data) ||
  tiktokPat url ||
  jsIncludes url ("vm.tiktok.com/".data) ||
  jsIncludes url (".m3u8".data) ||
  jsIncludes url (".mp4".data)

-- ===== URL Normalizer (convert functions, source 791-907) =====

def convertYouTubeUrl (url : Str) (autoplay : Bool) : Except Str Str :=
  let videoId :=
    if jsIncludes url ("youtube.com/watch?v=".data) then
      jsGetD (jsSplit (jsGetD (jsSplit url ("v=".data)) 1) ("&".data)) 0
    else if jsIncludes url ("youtu.be/".data) then
      jsGetD (jsSplit (jsGetD (jsSplit url ("youtu.be/".data)) 1) ("?".data)) 0
    else if jsIncludes url ("youtube.com/live/".data) then
      jsGetD (jsSplit (jsGetD (jsSplit url ("live/".data)) 1) ("?".data)) 0
    else if jsIncludes url ("youtube.com/embed/".data) then
      jsGetD (jsSplit (jsGetD (jsSplit url ("embed/".data)) 1) ("?".data)) 0
    else []
  if videoId = [] then .error ("Could not extract YouTube video ID".data)
  else
    let embedUrl := ("https://www.youtube.com/embed/".data) ++ videoId ++
      ("?rel=0&modestbranding=1&controls=1&showinfo=0".data)
    .ok (if autoplay then embedUrl ++ ("&autoplay=1&mute=1".data) else embedUrl)

/-- The hostname argument models window.location.hostname of the hosting page. -/
def convertTwitchUrl (hostname url : Str) (autoplay : Bool) : Except Str Str :=
  if jsIncludes url ("/videos/".data) then
    let video := jsGetD (jsSplit (jsGetD (jsSplit url ("/videos/".data)) 1) ("?".data)) 0
    let e := ("https://player.twitch.tv/?video=".data) ++ video ++ ("&parent=".data) ++ hostname
    .ok (if autoplay then e ++ ("&autoplay=true&muted=true".data) else e)
  else
    let parts := jsGetD (jsSplit url ("twitch.tv/".data)) 1
    let channel :=
      if parts ≠ [] then jsGetD (jsSplit (jsGetD (jsSplit parts ("/".data)) 0) ("?".data)) 0
      else []
    if channel = [] then .error ("Could not extract Twitch channel".data)
    else
      let e := ("https://player.twitch.tv/?channel=".data) ++ channel ++ ("&parent=".data) ++ hostname
      .ok (if autoplay then e ++ ("&autoplay=true&muted=true".data) else e)

def convertVimeoUrl (url : Str) (autoplay : Bool) : Except Str Str :=
  let videoId :=
    if jsIncludes url ("vimeo.com/".data) then
      jsGetD (jsSplit (jsGetD (jsSplit (jsGetD (jsSplit url ("vimeo.com/".data)) 1) ("?".data)) 0) ("/".data)) 0
    else []
  if videoId = [] then .error ("Could not extract Vimeo video ID".data)
  else
    let e := ("https://player.vimeo.com/video/".data) ++ videoId ++ ("?title=0&byline=0&portrait=0".data)
    .ok (if autoplay then e ++ ("&autoplay=1&muted=1".data) else e)

def convertDailyMotionUrl (url : Str) (autoplay : Bool) : Except Str Str :=
  let videoId :=
    if jsIncludes url ("dailymotion.com/video/".data) then
      jsGetD (jsSplit (jsGetD (jsSplit (jsGetD (jsSplit url ("/video/".data)) 1) ("?".data)) 0) ("_".data)) 0
    else if jsIncludes url ("dai.ly/".data) then
      jsGetD (jsSplit (jsGetD (jsSplit url ("dai.ly/".data)) 1) ("?".data)) 0
    else []
  if videoId = [] then .error ("Could not extract DailyMotion video ID".data)
  else
    let e := ("https://www.dailymotion.com/embed/video/".data) ++ videoId ++ ("?ui-logo=0".data)
    .ok (if autoplay then e ++ ("&autoplay=1&mute=1".data) else e)

/-- Platform router of source 791-832; platforms with limited embed support and
generic URLs pass through unchanged. -/
def convertToEmbedUrl (hostname url : Str) (autoplay : Bool) : Except Str Str :=
  if jsIncludes url ("youtube.com".data) || jsIncludes url ("youtu.be".data) then
    convertYouTubeUrl url autoplay
  else if jsIncludes url ("twitch.tv".data) then
    convertTwitchUrl hostname url autoplay
  else if jsIncludes url ("vimeo.com".data) then
    convertVimeoUrl url autoplay
  else if jsIncludes url ("dailymotion.com".data) || jsIncludes url ("dai.ly".data) then
    convertDailyMotionUrl url autoplay
  else if jsIncludes url ("facebook.com".data) || jsIncludes url ("fb.watch".data) then .ok url
  else if jsIncludes url ("instagram.com".data) then .ok url
  else if jsIncludes url ("tiktok.com".data) then .ok url
  else .ok url

-- ===== Tab/Window Orchestrator (source 671-755) =====

structure Tab where
  id : Nat
  url : Str
  kind : Str
  muted : Bool
deriving DecidableEq, Repr

def maxTabId (tabs : List Tab) : Nat := (tabs.map Tab.id).foldl max 0

/-- openTabs (source 671-719): append count new tabs with sequential ids starting
at the maximum existing id plus one, or 0 when the table is empty; the DOM grid
and badge updates are out of scope. -/
def openTabs (url : Str) (count : Nat) (kind : Str) (tabs : List Tab) : List Tab :=
  let startId := if tabs.length > 0 then maxTabId tabs + 1 else 0
  tabs ++ (List.range count).map (fun i => ⟨startId + i, url, kind, false⟩)

/-- closeTab (source 732-745): remove the tab with the given id; a missing id
leaves the table unchanged (the DOM element lookup fails), which the filter
reproduces. -/
def closeTab (index : Nat) (tabs : List Tab) : List Tab :=
  tabs.filter (fun t => t.id ≠ index)

def closeAllTabs (_tabs : List Tab) : List Tab := []

/-- openTabsWithRefresh (source 721-730): open the tabs, then attach a reload
interval to every tab of the whole resulting table (the forEach ranges over all
of activeTabs, not only the tabs just opened); intervals are recorded as
(tab id, interval ms) pairs. -/
def openTabsWithRefresh (url : Str) (interval count : Nat)
    (tabs : List Tab) (timers : List (Nat × Nat)) : List Tab × List (Nat × Nat) :=
  let tabs2 := openTabs url count ("refresh".data) tabs
  (tabs2, timers ++ tabs2.map (fun t => (t.id, interval)))

/-- Strict-equality comparison of a parsed (possibly NaN) JS number against a
tab id; none models NaN, which compares unequal to everything. -/
def oidMatches (oid : Option Int) (n : Nat) : Bool :=
  match oid with
  | some v => v = (n : Int)
  | none => false

/-- Array.prototype.find followed by a mute-flag assignment: set the flag on the
first tab whose id matches, leave everything else untouched. -/
def setMutedFirst (val : Bool) (oid : Option Int) : List Tab → List Tab
  | [] => []
  | t :: r =>
    if oidMatches oid t.id then { t with muted := val } :: r
    else t :: setMutedFirst val oid r

/-- Comma-separated entries of a mute or unmute parameter string, each parsed
with parseInt and shifted to 0-based (source 410, 430). -/
def muteEntries (params : Str) : List (Option Int) :=
  (jsSplit params (",".data)).map (fun n => (jsParseInt (jsTrim n)).map (· - 1))

/-- executeMute (source 401-419). -/
def executeMute (tabs : List Tab) (params : Str) : Except Str (List Tab × Str) :=
  if toLowerStr params = "all".data then
    .ok (tabs.map (fun t => { t with muted := true }),
         ("Muted all ".data) ++ natToStr tabs.length ++ (" tab(s)".data))
  else
    let tabIds := muteEntries params
    .ok (tabIds.foldl (fun ts oid => setMutedFirst true oid ts) tabs,
         ("Muted ".data) ++ natToStr tabIds.length ++ (" tab(s)".data))

/-- executeUnmute (source 421-439). -/
def executeUnmute (tabs : List Tab) (params : Str) : Except Str (List Tab × Str) :=
  if toLowerStr params = "all".data then
    .ok (tabs.map (fun t => { t with muted := false }),
         ("Unmuted all ".data) ++ natToStr tabs.length ++ (" tab(s)".data))
  else
    let tabIds := muteEntries params
    .ok (tabIds.foldl (fun ts oid => setMutedFirst false oid ts) tabs,
         ("Unmuted ".data) ++ natToStr tabIds.length ++ (" tab(s)".data))

/-- Rendering of the 1-based tab number in the fullscreen messages; adding one
to NaN stays NaN. -/
def renderNumPlus1 (oid : Option Int) : Str :=
  match oid with
  | none => "NaN".data
  | some v => intToStr (v + 1)

/-- executeFullscreen (source 446-457); the fullscreen API is modelled as
available. -/
def executeFullscreen (tabs : List Tab) (params : Str) : Except Str Str :=
  let tabNum := (jsParseInt params).map (· - 1)
  match tabs.find? (fun t => oidMatches tabNum t.id) with
  | none => .error (("Tab ".data) ++ renderNumPlus1 tabNum ++ (" not found".data))
  | some _ => .ok (("Tab ".data) ++ renderNumPlus1 tabNum ++ (" in fullscreen".data))

-- ===== Engine state =====

structure ScheduledTask where
  command : Str
  time : Str
  repeatKind : Str
  active : Bool
deriving DecidableEq, Repr

structure LoopTask where
  command : Str
  iterations : Nat
  delay : Nat
  current : Nat
  intervalArmed : Bool
deriving DecidableEq, Repr

/-- A callback registered with setTimeout: either a plain re-dispatch of a
command string (parallel, multi-command lines) or a chain continuation. -/
inductive TimerAct
  | dispatchCmd (cmd : Str)
  | chainCont (cmds : List Str) (index : Nat)
deriving DecidableEq, Repr

structure PendingTimer where
  delayMs : Nat
  act : TimerAct
deriving DecidableEq, Repr

/-- The global mutable registries of the engine: tab table, task tables, the
shared id counter, attached refresh intervals, and timer registrations. -/
structure EngineState where
  activeTabs : List Tab
  scheduledTasks : List (Nat × ScheduledTask)
  activeLoops : List (Nat × LoopTask)
  taskIdCounter : Nat
  refreshTimers : List (Nat × Nat)
  pendingTimers : List PendingTimer
deriving DecidableEq, Repr

def initState : EngineState := ⟨[], [], [], 0, [], []⟩

/-- Models window.location.hostname of the hosting page. -/
def hostName : Str := "localhost".data

-- ===== Raitha handlers (source 344-457) =====

def executeWatch (st : EngineState) (params : Str) : Except Str (EngineState × Str) :=
  match parse2 params with
  | none => .error ("Format: <url>.<tabs>".data)
  | some (u, ds) =>
    let url := jsTrim u
    let tabCount := natOfDigits 10 ds
    if tabCount < 1 || tabCount > 100 then .error ("Tab count: 1-100".data)
    else if !(isValidStreamingUrl url) then .error ("Invalid streaming platform URL".data)
    else
      match convertToEmbedUrl hostName url false with
      | .error e => .error e
      | .ok embedUrl =>
        .ok ({ st with activeTabs := openTabs embedUrl tabCount ("watch".data) st.activeTabs },
             ("Opened ".data) ++ natToStr tabCount ++ (" tab(s) watching: ".data) ++ url)

def executeLurk (st : EngineState) (params : Str) : Except Str (EngineState × Str) :=
  match parse2 params with
  | none => .error ("Format: <url>.<tabs>".data)
  | some (u, ds) =>
    let url := jsTrim u
    let tabCount := natOfDigits 10 ds
    if tabCount < 1 || tabCount > 100 then .error ("Tab count: 1-100".data)
    else if !(isValidStreamingUrl url) then .error ("Invalid streaming platform URL".data)
    else
      match convertToEmbedUrl hostName url true with
      | .error e => .error e
      | .ok embedUrl =>
        .ok ({ st with activeTabs := openTabs embedUrl tabCount ("lurk".data) st.activeTabs },
             ("Opened ".data) ++ natToStr tabCount ++ (" tab(s) lurking in: ".data) ++ url)

/-- executeRefresh (source 389-399): no URL validation or embed conversion is
performed for the refresh action. -/
def executeRefresh (st : EngineState) (params : Str) : Except Str (EngineState × Str) :=
  match parse3 params with
  | none => .error ("Format: <url>.<interval_sec>.<tabs>".data)
  | some (u, d1, d2) =>
    let url := jsTrim u
    let interval := natOfDigits 10 d1 * 1000
    let tabCount := natOfDigits 10 d2
    let opened := openTabsWithRefresh url interval tabCount st.activeTabs st.refreshTimers
    .ok ({ st with activeTabs := opened.1, refreshTimers := opened.2 },
         ("Opened ".data) ++ natToStr tabCount ++ (" tab(s) with ".data) ++
           natToStr (interval / 1000) ++ ("s auto-refresh".data))

def executeRaithaCommand (st : EngineState) (action params : Str) :
    Except Str (EngineState × Str) :=
  if action = "watch".data then executeWatch st params
  else if action = "lurk".data then executeLurk st params
  else if action = "refresh".data then executeRefresh st params
  else if action = "mute".data then
    (executeMute st.activeTabs params).map (fun p => ({ st with activeTabs := p.1 }, p.2))
  else if action = "unmute".data then
    (executeUnmute st.activeTabs params).map (fun p => ({ st with activeTabs := p.1 }, p.2))
  else if action = "scroll".data then .ok (st, "Scroll command registered".data)
  else if action = "fullscreen".data then
    (executeFullscreen st.activeTabs params).map (fun m => (st, m))
  else
    .error (("Unknown Raitha action: ".data) ++ action ++
      (". Available: watch, lurk, refresh, mute, unmute, scroll, fullscreen".data))

-- ===== Rena handlers (source 460-534) =====

def executeTest (st : EngineState) (params : Str) : Except Str (EngineState × Str) :=
  match parse2 params with
  | none => .error ("Format: <url>.<requests_per_sec>".data)
  | some (u, _) =>
    .ok (st, ("Load test started on ".data) ++ jsTrim u)

def executeScrape (st : EngineState) (params : Str) : Except Str (EngineState × Str) :=
  match parseLastDot params with
  | none => .error ("Format: <url>.<target>".data)
  | some (u, tgt) =>
    let url := jsTrim u
    let target := jsTrim tgt
    .ok ({ st with activeTabs := openTabs url 1 ("scrape".data) st.activeTabs },
         ("Scraping ".data) ++ target ++ (" from ".data) ++ url)

def unitOrSec (unit : Option Str) : Str :=
  match unit with
  | some u => u
  | none => "sec".data

def executeCompare (st : EngineState) (params : Str) : Except Str (EngineState × Str) :=
  let su := stripUnit params
  match parse2 su.1 with
  | none => .error ("Format: <url1>.<url2>.<interval>".data)
  | some (r1, d) =>
    match parseLastDot r1 with
    | none => .error ("Format: <url1>.<url2>.<interval>".data)
    | some _ =>
      .ok (st, ("Monitoring comparison every ".data) ++ natToStr (natOfDigits 10 d) ++
        unitOrSec su.2)

def executeMonitor (st : EngineState) (params : Str) : Except Str (EngineState × Str) :=
  let su := stripUnit params
  match parse2 su.1 with
  | none => .error ("Format: <url>.<keyword>.<check_interval>".data)
  | some (r1, d) =>
    match parseLastDot r1 with
    | none => .error ("Format: <url>.<keyword>.<check_interval>".data)
    | some (_, kw) =>
      .ok (st, ("Monitoring for \"".data) ++ jsTrim kw ++ ("\" every ".data) ++
        natToStr (natOfDigits 10 d) ++ unitOrSec su.2)

def executeDownload (st : EngineState) (_params : Str) : Except Str (EngineState × Str) :=
  .ok (st, "Download initiated (browser security may block)".data)

def executePing (st : EngineState) (params : Str) : Except Str (EngineState × Str) :=
  let su := stripUnit params
  match parse3 su.1 with
  | none => .error ("Format: <url>.<interval>.<duration>".data)
  | some _ => .ok (st, "Keep-alive ping started".data)

def executeRenaCommand (st : EngineState) (action params : Str) :
    Except Str (EngineState × Str) :=
  if action = "test".data then executeTest st params
  else if action = "scrape".data then executeScrape st params
  else if action = "compare".data then executeCompare st params
  else if action = "monitor".data then executeMonitor st params
  else if action = "download".data then executeDownload st params
  else if action = "ping".data then executePing st params
  else
    .error (("Unknown Rena action: ".data) ++ action ++
      (". Available: test, scrape, compare, monitor, download, ping".data))

-- ===== Leaf handlers (source 537-668) =====

def executeSchedule (st : EngineState) (params : Str) : Except Str (EngineState × Str) :=
  match stripRepeat params with
  | none => .error ("Format: <command>.<time>.<repeat>".data)
  | some (r, rep) =>
    match r.reverse with
    | '.' :: rr =>
      match parseLastDot rr.reverse with
      | none => .error ("Format: <command>.<time>.<repeat>".data)
      | some (c0, t0) =>
        let taskId := st.taskIdCounter
        .ok ({ st with taskIdCounter := st.taskIdCounter + 1,
                       scheduledTasks := st.scheduledTasks ++
                         [(taskId, ⟨jsTrim c0, jsTrim t0, rep, true⟩)] },
             ("Task scheduled (ID: ".data) ++ natToStr taskId ++ (")".data))
    | _ => .error ("Format: <command>.<time>.<repeat>".data)

/-- executeLoop (source 569-588): registers the loop task and arms its interval
(startLoop); ticks fire later on the event loop, modelled by loopTick below. -/
def executeLoop (st : EngineState) (params : Str) : Except Str (EngineState × Str) :=
  let su := stripUnit params
  match parse3 su.1 with
  | none => .error ("Format: <command>.<iterations>.<delay>".data)
  | some (c, d1, d2) =>
    let command := jsTrim c
    let iterations := natOfDigits 10 d1
    let delay := natOfDigits 10 d2 * (if su.2 = some ("min".data) then 60000 else 1000)
    let loopId := st.taskIdCounter
    .ok ({ st with taskIdCounter := st.taskIdCounter + 1,
                   activeLoops := st.activeLoops ++
                     [(loopId, ⟨command, iterations, delay, 0, true⟩)] },
         ("Loop started: ".data) ++ natToStr iterations ++ (" times with ".data) ++
           natToStr (delay / 1000) ++ ("s delay (ID: ".data) ++ natToStr loopId ++ (")".data))

def executeBatch (st : EngineState) (_params : Str) : Except Str (EngineState × Str) :=
  .ok (st, "Batch mode activated".data)

/-- executeParallel (source 617-632): registers one staggered fire-and-forget
dispatch per sub-command; nothing is dispatched synchronously. -/
def executeParallel (st : EngineState) (params : Str) : Except Str (EngineState × Str) :=
  let commands := (jsSplit params ("|".data)).map jsTrim
  .ok ({ st with pendingTimers := st.pendingTimers ++
          commands.enum.map (fun p => ⟨p.1 * 100, .dispatchCmd p.2⟩) },
       natToStr commands.length ++ (" commands running in parallel".data))

/-- executeChainSequence (source 643-657): dispatch the current step now; on
success register the next step 1000 ms later; on failure stop (the error is
logged and swallowed). The dispatch argument stands for parseAndExecute. -/
def executeChainSequence
    (dispatch : EngineState → Str → Except Str (EngineState × Str))
    (st : EngineState) (commands : List Str) (index : Nat) : EngineState :=
  if index ≥ commands.length then st
  else
    match dispatch st (commands.getD index []) with
    | .ok (st2, _) =>
      { st2 with pendingTimers := st2.pendingTimers ++
          [⟨1000, .chainCont commands (index + 1)⟩] }
    | .error _ => st

/-- executeChain (source 634-641). -/
def executeChain
    (dispatch : EngineState → Str → Except Str (EngineState × Str))
    (st : EngineState) (params : Str) : Except Str (EngineState × Str) :=
  let commands := (jsSplit params ("->".data)).map jsTrim
  let st2 := executeChainSequence dispatch st commands 0
  .ok (st2, ("Chain of ".data) ++ natToStr commands.length ++ (" commands started".data))

def executeRotate (st : EngineState) (params : Str) : Except Str (EngineState × Str) :=
  let su := stripUnit params
  match parse2 su.1 with
  | none => .error ("Format: <url_list>.<interval>".data)
  | some _ => .ok (st, "URL rotation started".data)

def executeLeafCommand
    (dispatch : EngineState → Str → Except Str (EngineState × Str))
    (st : EngineState) (action params : Str) : Except Str (EngineState × Str) :=
  if action = "schedule".data then executeSchedule st params
  else if action = "loop".data then executeLoop st params
  else if action = "batch".data then executeBatch st params
  else if action = "parallel".data then executeParallel st params
  else if action = "chain".data then executeChain dispatch st params
  else if action = "rotate".data then executeRotate st params
  else
    .error (("Unknown Leaf action: ".data) ++ action ++
      (". Available: schedule, loop, batch, parallel, chain, rotate".data))

/-- executeAction (source 333-340). -/
def executeAction
    (dispatch : EngineState → Str → Except Str (EngineState × Str))
    (st : EngineState) (iiName action params : Str) : Except Str (EngineState × Str) :=
  if iiName = "raitha".data then executeRaithaCommand st action params
  else if iiName = "rena".data then executeRenaCommand st action params
  else if iiName = "leaf".data then executeLeafCommand dispatch st action params
  else .error (("Unknown II: ".data) ++ iiName)

/-- parseAndExecute (source 311-331) over the engine state. The fuel argument
bounds the depth of synchronous re-entry through chain steps (the source
terminates because each nested command is strictly shorter); any fuel larger
than that depth gives the source behaviour. -/
def parseAndExecute : Nat → EngineState → Str → Except Str (EngineState × Str)
  | 0, _, _ => .error ("recursion limit".data)
  | fuel + 1, st, command =>
    match parseCommand command with
    | .error e => .error e
    | .ok c => executeAction (parseAndExecute fuel) st c.iiName c.action c.params

-- ===== Scheduler tick models =====

/-- One tick of the interval armed by startLoop (source 594-607), as a function
of the outcome of parseAndExecute on the stored command at that tick. The Bool
is true when the tick reached the iteration count, cleared the interval and
deleted the task. On a caught dispatch error nothing is mutated and the
interval keeps running. -/
def loopTick (r : Except Str Str) (t : LoopTask) : LoopTask × Bool :=
  match r with
  | .ok _ =>
    let t2 := { t with current := t.current + 1 }
    if t2.current ≥ t2.iterations then (t2, true) else (t2, false)
  | .error _ => (t, false)

/-- Runs loop ticks against a list of per-tick dispatch outcomes; returns the
final task state, whether the loop completed, and how many dispatches fired
(one per tick while the interval is armed; ticks after completion never fire). -/
def runLoop : List (Except Str Str) → LoopTask → LoopTask × Bool × Nat
  | [], t => (t, false, 0)
  | r :: rs, t =>
    let step := loopTick r t
    if step.2 then (step.1, true, 1)
    else
      let rest := runLoop rs step.1
      (rest.1, rest.2.1, rest.2.2 + 1)

/-- Timed dispatch trace of executeChainSequence on the event loop: entries are
(step index, fire time in ms, dispatch succeeded), parameterised by the
per-step dispatch outcome; the first argument counts the steps remaining. -/
def chainTrace (ok : Nat → Bool) : Nat → Nat → Nat → List (Nat × Nat × Bool)
  | 0, _, _ => []
  | r + 1, index, t =>
    (index, t, ok index) :: (if ok index then chainTrace ok r (index + 1) (t + 1000) else [])

/-- Sub-commands of a chain parameter string (source 635). -/
def executeChainCmds (params : Str) : List Str :=
  (jsSplit params ("->".data)).map jsTrim

def chainDispatches (ok : Nat → Bool) (params : Str) : List (Nat × Nat × Bool) :=
  chainTrace ok (executeChainCmds params).length 0 0

/-- Sub-commands of a parallel parameter string (source 618). -/
def executeParallelCmds (params : Str) : List Str :=
  (jsSplit params ("|".data)).map jsTrim

/-- Body of one parallel setTimeout callback (source 622-628): dispatch, and on
a caught error leave the state as it was. -/
def parallelDispatchTick (fuel : Nat) (st : EngineState) (cmd : Str) : EngineState :=
  match parseAndExecute fuel st cmd with
  | .ok (st2, _) => st2
  | .error _ => st

/-- Per-line branch of executeCommand (source 261-298): a trimmed line that
contains a pipe and does not start with the exact text Leaf Ex.parallel is
split at pipes into sub-commands dispatched with a 200 ms stagger; any other
line is passed whole to parseAndExecute at once. -/
def lineDispatchPlan (trimmed : Str) : List (Nat × Str) :=
  if jsIncludes trimmed ("|".data) && !(StartsWithB trimmed ("Leaf Ex.parallel".data)) then
    ((jsSplit trimmed ("|".data)).map jsTrim).enum.map (fun p => (p.1 * 200, p.2))
  else [(0, trimmed)]

-- ===== Helper lemmas =====

theorem foldl_max_init_le (l : List Nat) (a : Nat) : a ≤ l.foldl max a := by
  induction l generalizing a with
  | nil => exact Nat.le_refl a
  | cons x r ih => exact Nat.le_trans (Nat.le_max_left a x) (ih (max a x))

theorem le_foldl_max (l : List Nat) (a : Nat) : ∀ x ∈ l, x ≤ l.foldl max a := by
  induction l generalizing a with
  | nil => intro x hx; cases hx
  | cons y r ih =>
    intro x hx
    rcases List.mem_cons.mp hx with h | h
    · subst h; exact Nat.le_trans (Nat.le_max_right a x) (foldl_max_init_le r (max a x))
    · exact ih (max a y) x h

theorem mem_le_maxTabId (tabs : List Tab) (t : Tab) (ht : t ∈ tabs) :
    t.id ≤ maxTabId tabs :=
  le_foldl_max (tabs.map Tab.id) 0 t.id (List.mem_map_of_mem Tab.id ht)

theorem foldl_max_range (M : Nat) : (List.range M).foldl max 0 = M - 1 := by
  induction M with
  | zero => rfl
  | succ m ih =>
    rw [List.range_succ, List.foldl_append, ih]
    simp only [List.foldl]
    rw [Nat.max_eq_right (Nat.sub_le m 1)]
    omega

theorem openTabs_map_id (url k : Str) (n : Nat) (tabs : List Tab) :
    (openTabs url n k tabs).map Tab.id =
      tabs.map Tab.id ++ (List.range n).map
        (fun j => (if tabs.length > 0 then maxTabId tabs + 1 else 0) + j) := by
  simp [openTabs, List.map_map, Function.comp]

-- ===== C2: tab id assignment =====

/-- C2 counterexample: after opening two tabs and closing tab 0, exactly M = 1
tab exists (with id 1), and opening one more tab assigns id 2, not id M = 1 as
the claim requires; the id sequence of the table becomes 1, 2. -/
theorem c2_counterexample :
    (closeTab 0 (openTabs ("u".data) 2 ("watch".data) [])).length = 1 ∧
    (openTabs ("u".data) 1 ("watch".data)
        (closeTab 0 (openTabs ("u".data) 2 ("watch".data) []))).map Tab.id = [1, 2] ∧
    ([1, 2] : List Nat) ≠ [1, 1] := by decide

/-- C2 (amended): opening n tabs assigns ids from the maximum existing id plus
one (0 when the table is empty); this equals the id range starting at the tab
count M exactly when the existing ids are 0 .. M-1; and after closing a
non-maximal tab, newly opened tabs never reuse the closed id while a tab with
a larger id remains open. -/
theorem c2_amended_tab_ids (url k : Str) (n : Nat) (tabs : List Tab) (M i : Nat) (t : Tab) :
    (tabs = [] → (openTabs url n k tabs).map Tab.id = List.range n) ∧
    (tabs ≠ [] → (openTabs url n k tabs).map Tab.id =
       tabs.map Tab.id ++ (List.range n).map (fun j => maxTabId tabs + 1 + j)) ∧
    (tabs.map Tab.id = List.range M → 0 < M →
       (openTabs url n k tabs).map Tab.id =
         tabs.map Tab.id ++ (List.range n).map (fun j => M + j)) ∧
    (t ∈ tabs → i < t.id →
       ∀ t2 ∈ (openTabs url n k (closeTab i tabs)).drop (closeTab i tabs).length,
         i < t2.id) := by
  refine ⟨?_, ?_, ?_, ?_⟩
  · intro h; subst h
    rw [openTabs_map_id]
    simp
  · intro h
    have hl : tabs.length > 0 := List.length_pos.mpr h
    rw [openTabs_map_id, if_pos hl]
  · intro hid hM
    have hl : tabs.length > 0 := by
      have : (tabs.map Tab.id).length = M := by rw [hid, List.length_range]
      simp only [List.length_map] at this
      omega
    have hmax : maxTabId tabs = M - 1 := by
      unfold maxTabId; rw [hid]; exact foldl_max_range M
    rw [openTabs_map_id, if_pos hl, hmax]
    simp only [show M - 1 + 1 = M from by omega]
  · intro ht hi t2 ht2
    have hmem : t ∈ closeTab i tabs := by
      unfold closeTab
      refine List.mem_filter.mpr ⟨ht, ?_⟩
      simp only [decide_eq_true_eq]
      omega
    have hl : (closeTab i tabs).length > 0 := List.length_pos.mpr (by
      intro he; rw [he] at hmem; cases hmem)
    have hmax : i < maxTabId (closeTab i tabs) + 1 :=
      Nat.lt_succ_of_le (Nat.le_trans (Nat.le_of_lt hi) (mem_le_maxTabId _ t hmem))
    have hplan : openTabs url n k (closeTab i tabs) =
        closeTab i tabs ++ (List.range n).map
          (fun j => ⟨maxTabId (closeTab i tabs) + 1 + j, url, k, false⟩) := by
      unfold openTabs
      rw [if_pos hl]
    rw [hplan, List.drop_left] at ht2
    rcases List.mem_map.mp ht2 with ⟨j, _, hj⟩
    have hid2 : t2.id = maxTabId (closeTab i tabs) + 1 + j := by rw [← hj]
    omega

/-- C2 witness: the amended theorem instantiated at a concrete two-tab table
with ids 0 and 1, opening three more tabs and separately closing tab 0. -/
theorem c2_amended_tab_ids_witness :
    (([⟨0, "u".data, "w".data, false⟩, ⟨1, "u".data, "w".data, false⟩] : List Tab) ≠ []) ∧
    (([⟨0, "u".data, "w".data, false⟩, ⟨1, "u".data, "w".data, false⟩] : List Tab).map Tab.id
       = List.range 2) ∧ ((0:Nat) < 2) ∧
    ((⟨1, "u".data, "w".data, false⟩ : Tab) ∈
       ([⟨0, "u".data, "w".data, false⟩, ⟨1, "u".data, "w".data, false⟩] : List Tab)) ∧
    ((0:Nat) < (⟨1, "u".data, "w".data, false⟩ : Tab).id) ∧
    ((openTabs ("u".data) 3 ("w".data)
        [⟨0, "u".data, "w".data, false⟩, ⟨1, "u".data, "w".data, false⟩]).map Tab.id =
      ([⟨0, "u".data, "w".data, false⟩, ⟨1, "u".data, "w".data, false⟩] : List Tab).map Tab.id
        ++ (List.range 3).map (fun j => 2 + j)) ∧
    (∀ t2 ∈ (openTabs ("u".data) 3 ("w".data)
         (closeTab 0 [⟨0, "u".data, "w".data, false⟩, ⟨1, "u".data, "w".data, false⟩])).drop
         (closeTab 0 [⟨0, "u".data, "w".data, false⟩, ⟨1, "u".data, "w".data, false⟩]).length,
       0 < t2.id) :=
  ⟨by decide, by decide, by decide, by decide, by decide,
   (c2_amended_tab_ids ("u".data) ("w".data) 3
       [⟨0, "u".data, "w".data, false⟩, ⟨1, "u".data, "w".data, false⟩] 2 0
       ⟨1, "u".data, "w".data, false⟩).2.2.1 (by decide) (by decide),
   (c2_amended_tab_ids ("u".data) ("w".data) 3
       [⟨0, "u".data, "w".data, false⟩, ⟨1, "u".data, "w".data, false⟩] 2 0
       ⟨1, "u".data, "w".data, false⟩).2.2.2 (by decide) (by decide)⟩

-- ===== C3: loop scheduler =====

theorem runLoop_cons_ok_fin (m : Str) (t : LoopTask) (rs : List (Except Str Str))
    (h : t.current + 1 ≥ t.iterations) :
    runLoop (.ok m :: rs) t = ({ t with current := t.current + 1 }, true, 1) := by
  simp [runLoop, loopTick, h]

theorem runLoop_cons_ok_notfin (m : Str) (t : LoopTask) (rs : List (Except Str Str))
    (h : ¬ t.current + 1 ≥ t.iterations) :
    runLoop (.ok m :: rs) t =
      ((runLoop rs { t with current := t.current + 1 }).1,
       (runLoop rs { t with current := t.current + 1 }).2.1,
       (runLoop rs { t with current := t.current + 1 }).2.2 + 1) := by
  simp [runLoop, loopTick, h]

theorem runLoop_cons_err (e : Str) (t : LoopTask) (rs : List (Except Str Str)) :
    runLoop (.error e :: rs) t =
      ((runLoop rs t).1, (runLoop rs t).2.1, (runLoop rs t).2.2 + 1) := by
  simp [runLoop, loopTick]

theorem runLoop_replicate_ok_fin (cmd m : Str) (n d : Nat) (b : Bool) :
    ∀ (j cur : Nat), 0 < j → cur + j = n →
      runLoop (List.replicate j (.ok m)) ⟨cmd, n, d, cur, b⟩ = (⟨cmd, n, d, n, b⟩, true, j) := by
  intro j
  induction j with
  | zero => intro cur h0 _; omega
  | succ jj ih =>
    intro cur _ hsum
    rw [List.replicate_succ]
    by_cases hj : jj = 0
    · subst hj
      have hfin : (⟨cmd, n, d, cur, b⟩ : LoopTask).current + 1 ≥
          (⟨cmd, n, d, cur, b⟩ : LoopTask).iterations := by simp; omega
      rw [runLoop_cons_ok_fin m _ _ hfin]
      have : cur + 1 = n := by omega
      simp [this]
    · have hnf : ¬ (⟨cmd, n, d, cur, b⟩ : LoopTask).current + 1 ≥
          (⟨cmd, n, d, cur, b⟩ : LoopTask).iterations := by simp; omega
      rw [runLoop_cons_ok_notfin m _ _ hnf]
      have ihh := ih (cur + 1) (by omega) (by omega)
      simp only [] at ihh
      rw [show ({ (⟨cmd, n, d, cur, b⟩ : LoopTask) with current := cur + 1 } : LoopTask)
            = ⟨cmd, n, d, cur + 1, b⟩ from rfl, ihh]

theorem runLoop_replicate_ok_lt (cmd m : Str) (n d : Nat) (b : Bool) :
    ∀ (j cur : Nat), cur + j < n →
      runLoop (List.replicate j (.ok m)) ⟨cmd, n, d, cur, b⟩ =
        (⟨cmd, n, d, cur + j, b⟩, false, j) := by
  intro j
  induction j with
  | zero => intro cur _; simp [runLoop]
  | succ jj ih =>
    intro cur hlt
    rw [List.replicate_succ]
    have hnf : ¬ (⟨cmd, n, d, cur, b⟩ : LoopTask).current + 1 ≥
        (⟨cmd, n, d, cur, b⟩ : LoopTask).iterations := by simp; omega
    rw [runLoop_cons_ok_notfin m _ _ hnf]
    have ihh := ih (cur + 1) (by omega)
    rw [show ({ (⟨cmd, n, d, cur, b⟩ : LoopTask) with current := cur + 1 } : LoopTask)
          = ⟨cmd, n, d, cur + 1, b⟩ from rfl, ihh]
    have : cur + 1 + jj = cur + (jj + 1) := by omega
    simp [this]

theorem runLoop_append_notfin (xs ys : List (Except Str Str)) (t : LoopTask)
    (h : (runLoop xs t).2.1 = false) :
    runLoop (xs ++ ys) t =
      ((runLoop ys (runLoop xs t).1).1, (runLoop ys (runLoop xs t).1).2.1,
       (runLoop xs t).2.2 + (runLoop ys (runLoop xs t).1).2.2) := by
  induction xs generalizing t with
  | nil => simp [runLoop]
  | cons r rs ih =>
    match r with
    | .ok m =>
      by_cases hfin : t.current + 1 ≥ t.iterations
      · rw [runLoop_cons_ok_fin m t rs hfin] at h
        exact absurd h (by simp)
      · have h2 : (runLoop rs { t with current := t.current + 1 }).2.1 = false := by
          rw [runLoop_cons_ok_notfin m t rs hfin] at h
          exact h
        simp only [List.cons_append]
        rw [runLoop_cons_ok_notfin m t (rs ++ ys) hfin,
            runLoop_cons_ok_notfin m t rs hfin, ih _ h2]
        simp [Prod.ext_iff]
        omega
    | .error e =>
      have h2 : (runLoop rs t).2.1 = false := by
        rw [runLoop_cons_err e t rs] at h
        exact h
      simp only [List.cons_append]
      rw [runLoop_cons_err e t (rs ++ ys), runLoop_cons_err e t rs, ih _ h2]
      simp [Prod.ext_iff]
      omega

/-- C3 counterexample: a 3-iteration loop whose second tick fails. After three
ticks the task is still live with currentIteration 2 (so the counter was not
incremented on the failing tick), and completing the loop takes a fourth
dispatch, contradicting that exactly 3 dispatches fire. -/
theorem c3_counterexample :
    runLoop [.ok ("r".data), .error ("e".data), .ok ("r".data)]
        ⟨"c".data, 3, 1000, 0, true⟩ =
      (⟨"c".data, 3, 1000, 2, true⟩, false, 3) ∧
    runLoop [.ok ("r".data), .error ("e".data), .ok ("r".data), .ok ("r".data)]
        ⟨"c".data, 3, 1000, 0, true⟩ =
      (⟨"c".data, 3, 1000, 3, true⟩, true, 4) ∧
    (4 ≠ 3) := by decide

/-- C3 (amended): while the task lives the interval fires a dispatch every
delay ms; a successful dispatch increments currentIteration and the task is
cancelled and removed when the counter reaches iterations; a failed dispatch
is caught, leaves the counter unchanged, and does not stop the loop, so the
next tick still fires; consequently an all-success run fires exactly n
dispatches, while a run with one failed tick at position k fires n + 1. -/
theorem c3_amended_loop (cmd m e : Str) (n d k : Nat) (t : LoopTask)
    (hn : 0 < n) (hk : k < n) :
    (runLoop (List.replicate n (.ok m)) ⟨cmd, n, d, 0, true⟩ =
       (⟨cmd, n, d, n, true⟩, true, n)) ∧
    (loopTick (.error e) t = (t, false)) ∧
    (loopTick (.ok m) t =
       ({ t with current := t.current + 1 }, decide (t.current + 1 ≥ t.iterations))) ∧
    (runLoop (List.replicate k (.ok m) ++ .error e :: List.replicate (n - k) (.ok m))
        ⟨cmd, n, d, 0, true⟩ = (⟨cmd, n, d, n, true⟩, true, n + 1)) := by
  refine ⟨runLoop_replicate_ok_fin cmd m n d true n 0 hn (by omega), rfl, ?_, ?_⟩
  · simp only [loopTick]
    by_cases hc : t.current + 1 ≥ t.iterations
    · simp [hc]
    · simp [hc]
  · have hpre := runLoop_replicate_ok_lt cmd m n d true k 0 (by omega)
    rw [runLoop_append_notfin _ _ _ (by rw [hpre]), hpre]
    simp only []
    rw [runLoop_cons_err]
    have hrest := runLoop_replicate_ok_fin cmd m n d true (n - k) k (by omega) (by omega)
    simp only [Nat.zero_add]
    rw [hrest]
    simp [Prod.ext_iff]
    omega

/-- C3 witness: the amended theorem at a concrete 3-iteration loop with a
failure on the second tick. -/
theorem c3_amended_loop_witness :
    ((0:Nat) < 3) ∧ ((1:Nat) < 3) ∧
    runLoop (List.replicate 1 (.ok ("r".data)) ++
        .error ("e".data) :: List.replicate (3 - 1) (.ok ("r".data)))
      ⟨"c".data, 3, 1000, 0, true⟩ = (⟨"c".data, 3, 1000, 3, true⟩, true, 3 + 1) :=
  ⟨by decide, by decide,
   (c3_amended_loop ("c".data) ("r".data) ("e".data) 3 1000 1
      ⟨"c".data, 3, 1000, 0, true⟩ (by decide) (by decide)).2.2.2⟩

-- ===== C4: chain sequencing =====

theorem chainTrace_mem_iff (ok : Nat → Bool) :
    ∀ (r index t j tm : Nat) (b : Bool),
      (j, tm, b) ∈ chainTrace ok r index t ↔
        (index ≤ j ∧ j < index + r ∧ (∀ kk, index ≤ kk → kk < j → ok kk = true) ∧
         tm = t + 1000 * (j - index) ∧ b = ok j) := by
  intro r
  induction r with
  | zero =>
    intro index t j tm b
    simp only [chainTrace, List.not_mem_nil, false_iff]
    rintro ⟨h1, h2, -⟩
    omega
  | succ rr ih =>
    intro index t j tm b
    simp only [chainTrace]
    constructor
    · intro hmem
      rcases List.mem_cons.mp hmem with hhead | htail
      · simp only [Prod.mk.injEq] at hhead
        obtain ⟨hj, htm, hb⟩ := hhead
        subst hj
        refine ⟨Nat.le_refl _, by omega, ?_, by omega, hb⟩
        intro kk hk1 hk2
        omega
      · by_cases hoi : ok index = true
        · rw [if_pos hoi] at htail
          obtain ⟨h1, h2, h3, h4, h5⟩ := (ih (index + 1) (t + 1000) j tm b).mp htail
          refine ⟨by omega, by omega, ?_, by omega, h5⟩
          intro kk hk1 hk2
          rcases Nat.eq_or_lt_of_le hk1 with he | hl
          · rw [← he]; exact hoi
          · exact h3 kk (by omega) hk2
        · rw [if_neg hoi] at htail
          cases htail
    · rintro ⟨h1, h2, h3, h4, h5⟩
      rcases Nat.eq_or_lt_of_le h1 with he | hl
      · have heq : ((j : Nat), (tm : Nat), b) = (index, t, ok index) := by
          subst he
          have htm : tm = t := by omega
          rw [htm, h5]
        rw [heq]
        exact List.mem_cons_self _ _
      · have hoi : ok index = true := h3 index (Nat.le_refl _) hl
        apply List.mem_cons_of_mem
        rw [if_pos hoi]
        exact (ih (index + 1) (t + 1000) j tm b).mpr
          ⟨by omega, by omega, fun kk hk1 hk2 => h3 kk (by omega) hk2, by omega, h5⟩

/-- C4: characterization of the chain dispatch trace. A step j is dispatched
exactly when it is in range and every earlier step succeeded, it fires at
1000 * j ms (a 1000 ms gap after each success), it records its own pass or
fail outcome, and as soon as some step fails no later step is ever
dispatched (the chain aborts), while every step before the failing one has
executed. -/
theorem c4_chain_strict_order (params : Str) (ok : Nat → Bool) (j tm : Nat) (b : Bool) :
    (j, tm, b) ∈ chainDispatches ok params ↔
      (j < (executeChainCmds params).length ∧ (∀ kk, kk < j → ok kk = true) ∧
       tm = 1000 * j ∧ b = ok j) := by
  unfold chainDispatches
  rw [chainTrace_mem_iff]
  constructor
  · rintro ⟨h1, h2, h3, h4, h5⟩
    exact ⟨by omega, fun kk hk => h3 kk (Nat.zero_le _) hk, by omega, h5⟩
  · rintro ⟨h1, h2, h3, h4⟩
    exact ⟨Nat.zero_le _, by omega, fun kk _ hk => h2 kk hk, by omega, h4⟩

-- ===== C5: parallel dispatch =====

/-- C5: executeParallel registers one staggered fire-and-forget dispatch per
sub-command, delayed by 100 ms times its index, touching no other engine
state and never failing; each setTimeout callback catches its own dispatch
failure, leaving the state untouched, so a failing sub-command neither
prevents a sibling from being dispatched (all registrations happen up
front) nor changes the outcome of a sibling that runs after it. -/
theorem c5_parallel_independent (params : Str) (st : EngineState) (fuel : Nat)
    (cA cB e : Str) (hfail : parseAndExecute fuel st cA = .error e) :
    (executeParallel st params = .ok
       ({ st with pendingTimers := (st.pendingTimers ++
           (executeParallelCmds params).enum.map
             (fun p => ⟨p.1 * 100, .dispatchCmd p.2⟩)) },
        natToStr (executeParallelCmds params).length ++
          (" commands running in parallel".data))) ∧
    (parallelDispatchTick fuel st cA = st) ∧
    (parallelDispatchTick fuel (parallelDispatchTick fuel st cA) cB =
       parallelDispatchTick fuel st cB) := by
  have htick : parallelDispatchTick fuel st cA = st := by
    unfold parallelDispatchTick
    rw [hfail]
  exact ⟨rfl, htick, by rw [htick]⟩

/-- C5 witness: a two-command parallel registration on the initial state, with
a sub-command whose dispatch fails (no agent name). -/
theorem c5_parallel_independent_witness :
    (parseAndExecute 5 initState ("bogus".data) =
       .error ("Command must start with II name".data)) ∧
    (executeParallel initState ("a|b".data) = .ok
       ({ initState with pendingTimers := (initState.pendingTimers ++
           (executeParallelCmds ("a|b".data)).enum.map
             (fun p => ⟨p.1 * 100, .dispatchCmd p.2⟩)) },
        natToStr (executeParallelCmds ("a|b".data)).length ++
          (" commands running in parallel".data))) ∧
    (parallelDispatchTick 5 initState ("bogus".data) = initState) :=
  ⟨by decide,
   (c5_parallel_independent ("a|b".data) initState 5 ("bogus".data) ("x".data)
      ("Command must start with II name".data) (by decide)).1,
   (c5_parallel_independent ("a|b".data) initState 5 ("bogus".data) ("x".data)
      ("Command must start with II name".data) (by decide)).2.1⟩

-- ===== C6: pipe splitting of input lines =====

/-- C6 counterexample: the line written with a lower-case agent name is a
parallel action invocation under the case-insensitive grammar, yet the
executor splits it at the pipe, because the exemption tests the exact
case-sensitive text Leaf Ex.parallel. -/
theorem c6_counterexample :
    (parseCommand ("leaf Ex.parallel -- a|b".data)).toOption.map
      (fun c => (c.iiName, c.action)) = some ("leaf".data, "parallel".data) ∧
    lineDispatchPlan ("leaf Ex.parallel -- a|b".data) =
      [(0, "leaf Ex.parallel -- a".data), (200, "b".data)] ∧
    [(0, "leaf Ex.parallel -- a".data), (200, "b".data)] ≠
      [((0:Nat), "leaf Ex.parallel -- a|b".data)] := by decide

/-- C6 (amended): a line containing a pipe is split into sub-commands with a
200 ms stagger unless it starts with the exact case-sensitive text
Leaf Ex.parallel; the exemption keys on that literal text, not on whether
the parsed action is parallel; lines without a pipe, and lines with the
literal text, are passed whole to the dispatcher at once. -/
theorem c6_amended_line_split (line : Str) :
    (jsIncludes line ("|".data) = true → StartsWithB line ("Leaf Ex.parallel".data) = false →
       lineDispatchPlan line =
         ((jsSplit line ("|".data)).map jsTrim).enum.map (fun p => (p.1 * 200, p.2))) ∧
    (StartsWithB line ("Leaf Ex.parallel".data) = true → lineDispatchPlan line = [(0, line)]) ∧
    (jsIncludes line ("|".data) = false → lineDispatchPlan line = [(0, line)]) := by
  refine ⟨?_, ?_, ?_⟩
  · intro h1 h2
    unfold lineDispatchPlan
    rw [h1, h2]
    rfl
  · intro h2
    unfold lineDispatchPlan
    rw [h2]
    simp
  · intro h1
    unfold lineDispatchPlan
    rw [h1]
    simp

/-- C6 witness: the amended theorem at a pipe-containing line without the
literal exemption text. -/
theorem c6_amended_line_split_witness :
    (jsIncludes ("a|b".data) ("|".data) = true) ∧
    (StartsWithB ("a|b".data) ("Leaf Ex.parallel".data) = false) ∧
    lineDispatchPlan ("a|b".data) =
      ((jsSplit ("a|b".data) ("|".data)).map jsTrim).enum.map (fun p => (p.1 * 200, p.2)) :=
  ⟨by decide, by decide,
   (c6_amended_line_split ("a|b".data)).1 (by decide) (by decide)⟩

-- ===== C8: the watch example =====

/-- C8: executing the example line on an empty tab table opens exactly two
tabs with ids 0 and 1, each holding exactly the expected embed URL with no
autoplay or mute parameters, tagged as watch tabs. -/
theorem c8_watch_example :
    (parseAndExecute 10 initState
        ("Raitha Ex.watch -- https://youtube.com/watch?v=abc123.2".data)).toOption.map
      (fun p => p.1.activeTabs.map (fun t => (t.id, t.url, t.kind))) =
    some [(0, "https://www.youtube.com/embed/abc123?rel=0&modestbranding=1&controls=1&showinfo=0".data,
             "watch".data),
          (1, "https://www.youtube.com/embed/abc123?rel=0&modestbranding=1&controls=1&showinfo=0".data,
             "watch".data)] := by decide

-- ===== C9: refresh intervals attach to every tab =====

/-- C9: after a refresh command, a reload interval of intervalSec * 1000 ms is
recorded for every tab of the resulting table, in particular for every tab
that already existed before the command, not only for the tabs the command
itself opens; the table itself is the old table with the new refresh tabs
appended. -/
theorem c9_refresh_all_tabs (st st2 : EngineState) (params u d1 d2 msg : Str)
    (hp : parse3 params = some (u, d1, d2))
    (hr : executeRefresh st params = .ok (st2, msg)) :
    (∀ t ∈ st.activeTabs, (t.id, natOfDigits 10 d1 * 1000) ∈ st2.refreshTimers) ∧
    (∀ t2 ∈ st2.activeTabs, (t2.id, natOfDigits 10 d1 * 1000) ∈ st2.refreshTimers) ∧
    st2.activeTabs = openTabs (jsTrim u) (natOfDigits 10 d2) ("refresh".data) st.activeTabs := by
  unfold executeRefresh at hr
  rw [hp] at hr
  simp only [openTabsWithRefresh, Except.ok.injEq, Prod.mk.injEq] at hr
  obtain ⟨hst2, -⟩ := hr
  subst hst2
  refine ⟨?_, ?_, rfl⟩
  · intro t ht
    apply List.mem_append_right
    refine List.mem_map.mpr ⟨t, ?_, rfl⟩
    unfold openTabs
    exact List.mem_append_left _ ht
  · intro t2 ht2
    apply List.mem_append_right
    exact List.mem_map.mpr ⟨t2, ht2, rfl⟩

/-- C9 witness: a refresh command executed while one watch tab is already
open; the reload interval is recorded for the pre-existing tab as well. -/
theorem c9_refresh_all_tabs_witness :
    (parse3 ("x.2.1".data) = some ("x".data, "2".data, "1".data)) ∧
    (executeRefresh ⟨[⟨0, "v".data, "watch".data, false⟩], [], [], 0, [], []⟩ ("x.2.1".data) =
       .ok (⟨[⟨0, "v".data, "watch".data, false⟩, ⟨1, "x".data, "refresh".data, false⟩],
             [], [], 0, [(0, 2000), (1, 2000)], []⟩,
            "Opened 1 tab(s) with 2s auto-refresh".data)) ∧
    (∀ t ∈ (⟨[⟨0, "v".data, "watch".data, false⟩], [], [], 0, [], []⟩ :
        EngineState).activeTabs,
       (t.id, natOfDigits 10 ("2".data) * 1000) ∈
         (⟨[⟨0, "v".data, "watch".data, false⟩, ⟨1, "x".data, "refresh".data, false⟩],
           [], [], 0, [(0, 2000), (1, 2000)], []⟩ : EngineState).refreshTimers) :=
  ⟨by decide, by decide,
   (c9_refresh_all_tabs
      ⟨[⟨0, "v".data, "watch".data, false⟩], [], [], 0, [], []⟩
      ⟨[⟨0, "v".data, "watch".data, false⟩, ⟨1, "x".data, "refresh".data, false⟩],
        [], [], 0, [(0, 2000), (1, 2000)], []⟩
      ("x.2.1".data) ("x".data) ("2".data) ("1".data)
      ("Opened 1 tab(s) with 2s auto-refresh".data)
      (by decide) (by decide)).1⟩

-- ===== C10: mute and unmute totality =====

theorem setMutedFirst_preserves (val : Bool) (oid : Option Int) (ts : List Tab) :
    (setMutedFirst val oid ts).map (fun t => (t.id, t.url, t.kind)) =
      ts.map (fun t => (t.id, t.url, t.kind)) := by
  induction ts with
  | nil => rfl
  | cons t r ih =>
    unfold setMutedFirst
    by_cases h : oidMatches oid t.id
    · rw [if_pos h]; simp
    · rw [if_neg h]; simp only [List.map_cons, ih]

theorem foldl_setMutedFirst_preserves (val : Bool) (entries : List (Option Int))
    (ts : List Tab) :
    (entries.foldl (fun acc oid => setMutedFirst val oid acc) ts).map
        (fun t => (t.id, t.url, t.kind)) =
      ts.map (fun t => (t.id, t.url, t.kind)) := by
  induction entries generalizing ts with
  | nil => rfl
  | cons o r ih => rw [List.foldl_cons, ih, setMutedFirst_preserves]

theorem setMutedFirst_no_match (val : Bool) (oid : Option Int) (ts : List Tab)
    (h : ∀ t ∈ ts, oidMatches oid t.id = false) : setMutedFirst val oid ts = ts := by
  induction ts with
  | nil => rfl
  | cons t r ih =>
    unfold setMutedFirst
    rw [if_neg (by simp [h t (List.mem_cons_self t r)]),
        ih (fun t2 ht2 => h t2 (List.mem_cons_of_mem t ht2))]

theorem foldl_setMutedFirst_no_match (val : Bool) (entries : List (Option Int))
    (ts : List Tab)
    (h : ∀ oid ∈ entries, ∀ t ∈ ts, oidMatches oid t.id = false) :
    entries.foldl (fun acc oid => setMutedFirst val oid acc) ts = ts := by
  induction entries with
  | nil => rfl
  | cons o r ih =>
    rw [List.foldl_cons, setMutedFirst_no_match val o ts (h o (List.mem_cons_self o r)),
        ih (fun oid ho t ht => h oid (List.mem_cons_of_mem o ho) t ht)]

/-- C10: for every parameter string other than all (case-insensitively), mute
and unmute always succeed: each comma entry is parsed as a 1-based number and
matched against tab ids by the first-match rule; the ids, urls and kinds of
the table are unchanged; the reported count is the number of requested
entries (the comma-split length), not the number of tabs actually affected;
and when no entry matches any open tab (for example non-numeric entries,
which parse to NaN) the table is returned completely unchanged. -/
theorem c10_mute_unmute_total (params : Str) (tabs : List Tab)
    (h : toLowerStr params ≠ "all".data) :
    (executeMute tabs params = .ok
       ((muteEntries params).foldl (fun acc oid => setMutedFirst true oid acc) tabs,
        ("Muted ".data) ++ natToStr (muteEntries params).length ++ (" tab(s)".data))) ∧
    (executeUnmute tabs params = .ok
       ((muteEntries params).foldl (fun acc oid => setMutedFirst false oid acc) tabs,
        ("Unmuted ".data) ++ natToStr (muteEntries params).length ++ (" tab(s)".data))) ∧
    ((muteEntries params).length = (jsSplit params (",".data)).length) ∧
    (((muteEntries params).foldl (fun acc oid => setMutedFirst true oid acc) tabs).map
        (fun t => (t.id, t.url, t.kind)) = tabs.map (fun t => (t.id, t.url, t.kind))) ∧
    (((muteEntries params).foldl (fun acc oid => setMutedFirst false oid acc) tabs).map
        (fun t => (t.id, t.url, t.kind)) = tabs.map (fun t => (t.id, t.url, t.kind))) ∧
    ((∀ oid ∈ muteEntries params, ∀ t ∈ tabs, oidMatches oid t.id = false) →
       ((muteEntries params).foldl (fun acc oid => setMutedFirst true oid acc) tabs = tabs ∧
        (muteEntries params).foldl (fun acc oid => setMutedFirst false oid acc) tabs = tabs)) := by
  refine ⟨?_, ?_, ?_, foldl_setMutedFirst_preserves true _ tabs,
          foldl_setMutedFirst_preserves false _ tabs, ?_⟩
  · unfold executeMute
    rw [if_neg h]
  · unfold executeUnmute
    rw [if_neg h]
  · simp [muteEntries]
  · intro hnm
    exact ⟨foldl_setMutedFirst_no_match true _ tabs hnm,
           foldl_setMutedFirst_no_match false _ tabs hnm⟩

/-- C10 witness: muting with the parameter 2,x on a one-tab table; the entry 2
matches no tab and x parses to NaN, so the table is unchanged while the
message still reports two entries. -/
theorem c10_mute_unmute_total_witness :
    (toLowerStr ("2,x".data) ≠ "all".data) ∧
    (executeMute [⟨0, "v".data, "watch".data, false⟩] ("2,x".data) = .ok
       ((muteEntries ("2,x".data)).foldl (fun acc oid => setMutedFirst true oid acc)
          [⟨0, "v".data, "watch".data, false⟩],
        ("Muted ".data) ++ natToStr (muteEntries ("2,x".data)).length ++ (" tab(s)".data))) ∧
    ((∀ oid ∈ muteEntries ("2,x".data),
        ∀ t ∈ [(⟨0, "v".data, "watch".data, false⟩ : Tab)], oidMatches oid t.id = false) →
      ((muteEntries ("2,x".data)).foldl (fun acc oid => setMutedFirst true oid acc)
          [⟨0, "v".data, "watch".data, false⟩] = [⟨0, "v".data, "watch".data, false⟩] ∧
       (muteEntries ("2,x".data)).foldl (fun acc oid => setMutedFirst false oid acc)
          [⟨0, "v".data, "watch".data, false⟩] = [⟨0, "v".data, "watch".data, false⟩])) :=
  ⟨by decide,
   (c10_mute_unmute_total ("2,x".data) [⟨0, "v".data, "watch".data, false⟩] (by decide)).1,
   (c10_mute_unmute_total ("2,x".data) [⟨0, "v".data, "watch".data, false⟩] (by decide)).2.2.2.2.2⟩

-- ===== C7: embed URL round trip =====

/-- C7 counterexample: converting a Vimeo URL yields the expected player URL,
but applying the converter to that result again succeeds with the identifier
video, taken from the path literal, instead of the original id 12345; the
two embed URLs differ, so re-normalization does not extract the same
identifier. -/
theorem c7_counterexample :
    convertToEmbedUrl ("localhost".data) ("https://vimeo.com/12345".data) false =
      .ok ("https://player.vimeo.com/video/12345?title=0&byline=0&portrait=0".data) ∧
    convertToEmbedUrl ("localhost".data)
        ("https://player.vimeo.com/video/12345?title=0&byline=0&portrait=0".data) false =
      .ok ("https://player.vimeo.com/video/video?title=0&byline=0&portrait=0".data) ∧
    ("https://player.vimeo.com/video/video?title=0&byline=0&portrait=0".data ≠
     "https://player.vimeo.com/video/12345?title=0&byline=0&portrait=0".data) := by decide

-- ===== String matching kit =====

theorem matchAt_zero_iff (s sub : Str) : MatchAt s sub 0 ↔ s.take sub.length = sub := by
  unfold MatchAt
  rw [List.drop_zero]

theorem matchAt_succ_cons (c : Char) (t sub : Str) (j : Nat) :
    MatchAt (c :: t) sub (j + 1) ↔ MatchAt t sub j := by
  unfold MatchAt
  rw [List.drop_succ_cons]

theorem firstIdx_spec_some (s sub : Str) :
    ∀ i, firstIdx s sub = some i → MatchAt s sub i ∧ ∀ j, j < i → ¬ MatchAt s sub j := by
  induction s with
  | nil =>
    intro i h
    unfold firstIdx at h
    by_cases hp : ([] : Str).take sub.length = sub
    · rw [if_pos hp] at h
      injection h with h
      subst h
      exact ⟨(matchAt_zero_iff _ _).mpr hp, fun j hj => absurd hj (by omega)⟩
    · rw [if_neg hp] at h
      cases h
  | cons c t ih =>
    intro i h
    unfold firstIdx at h
    by_cases hp : (c :: t).take sub.length = sub
    · rw [if_pos hp] at h
      injection h with h
      subst h
      exact ⟨(matchAt_zero_iff _ _).mpr hp, fun j hj => absurd hj (by omega)⟩
    · rw [if_neg hp] at h
      have h2 : (firstIdx t sub).map (· + 1) = some i := h
      cases hf : firstIdx t sub with
      | none => rw [hf] at h2; cases h2
      | some i0 =>
        rw [hf] at h2
        simp at h2
        subst h2
        obtain ⟨hm, hmin⟩ := ih i0 hf
        refine ⟨(matchAt_succ_cons c t sub i0).mpr hm, ?_⟩
        intro j hj
        match j with
        | 0 =>
          intro hm0
          exact hp ((matchAt_zero_iff _ _).mp hm0)
        | j + 1 =>
          intro hmj
          exact hmin j (by omega) ((matchAt_succ_cons c t sub j).mp hmj)

theorem firstIdx_spec_none (s sub : Str) (h : firstIdx s sub = none) :
    ∀ j, ¬ MatchAt s sub j := by
  induction s with
  | nil =>
    intro j hm
    unfold firstIdx at h
    by_cases hp : ([] : Str).take sub.length = sub
    · rw [if_pos hp] at h; cases h
    · apply hp
      unfold MatchAt at hm
      simp only [List.drop_nil] at hm
      simpa using hm
  | cons c t ih =>
    intro j hm
    unfold firstIdx at h
    by_cases hp : (c :: t).take sub.length = sub
    · rw [if_pos hp] at h; cases h
    · rw [if_neg hp] at h
      have h2 : (firstIdx t sub).map (· + 1) = none := h
      cases hf : firstIdx t sub with
      | some i0 => rw [hf] at h2; cases h2
      | none =>
        match j with
        | 0 => exact hp ((matchAt_zero_iff _ _).mp hm)
        | j + 1 => exact ih hf j ((matchAt_succ_cons c t sub j).mp hm)

theorem firstIdx_of_first (s sub : Str) (i : Nat) (h1 : MatchAt s sub i)
    (h2 : ∀ j, j < i → ¬ MatchAt s sub j) : firstIdx s sub = some i := by
  cases hf : firstIdx s sub with
  | none => exact absurd h1 (firstIdx_spec_none s sub hf i)
  | some i0 =>
    obtain ⟨hm0, hmin0⟩ := firstIdx_spec_some s sub i0 hf
    rcases Nat.lt_trichotomy i0 i with hlt | heq | hgt
    · exact absurd hm0 (h2 i0 hlt)
    · rw [heq]
    · exact absurd h1 (hmin0 i hgt)

theorem jsIncludes_true_iff (s sub : Str) :
    jsIncludes s sub = true ↔ ∃ i, MatchAt s sub i := by
  unfold jsIncludes
  constructor
  · intro h
    cases hf : firstIdx s sub with
    | none => rw [hf] at h; cases h
    | some i => exact ⟨i, (firstIdx_spec_some s sub i hf).1⟩
  · rintro ⟨i, hm⟩
    cases hf : firstIdx s sub with
    | none => exact absurd hm (firstIdx_spec_none s sub hf i)
    | some i0 => rfl

theorem jsIncludes_false_iff (s sub : Str) :
    jsIncludes s sub = false ↔ ∀ i, ¬ MatchAt s sub i := by
  constructor
  · intro h i hm
    have := (jsIncludes_true_iff s sub).mpr ⟨i, hm⟩
    rw [h] at this
    cases this
  · intro h
    cases hinc : jsIncludes s sub
    · rfl
    · obtain ⟨i, hm⟩ := (jsIncludes_true_iff s sub).mp hinc
      exact absurd hm (h i)

theorem jsIncludes_true_of_matchAt (s sub : Str) (i : Nat) (h : MatchAt s sub i) :
    jsIncludes s sub = true :=
  (jsIncludes_true_iff s sub).mpr ⟨i, h⟩

theorem matchAt_length_facts (s sub : Str) (i : Nat) (h : MatchAt s sub i)
    (hsub : sub ≠ []) : i + sub.length ≤ s.length := by
  unfold MatchAt at h
  have hlen := congrArg List.length h
  rw [List.length_take, List.length_drop] at hlen
  have hpos : 0 < sub.length := List.length_pos.mpr hsub
  omega

theorem firstIdx_some_le (s sub : Str) (i : Nat) (h : firstIdx s sub = some i)
    (hsub : sub ≠ []) : i + sub.length ≤ s.length :=
  matchAt_length_facts s sub i (firstIdx_spec_some s sub i h).1 hsub

theorem splitGo_fuel (sep : Str) (hsep : sep ≠ []) :
    ∀ (f1 f2 : Nat) (s : Str), s.length < f1 → s.length < f2 →
      splitGo sep f1 s = splitGo sep f2 s := by
  intro f1
  induction f1 with
  | zero => intro f2 s h1 _; omega
  | succ g ih =>
    intro f2 s h1 h2
    match f2 with
    | 0 => omega
    | f2p + 1 =>
      simp only [splitGo]
      cases hf : firstIdx s sep with
      | none => rfl
      | some i =>
        dsimp only
        have hle := firstIdx_some_le s sep i hf hsep
        have hpos : 0 < sep.length := List.length_pos.mpr hsep
        rw [ih f2p (s.drop (i + sep.length))
          (by rw [List.length_drop]; omega) (by rw [List.length_drop]; omega)]

theorem jsSplit_cons_eq (s sep : Str) (hsep : sep ≠ []) (i : Nat)
    (hf : firstIdx s sep = some i) :
    jsSplit s sep = s.take i :: jsSplit (s.drop (i + sep.length)) sep := by
  unfold jsSplit
  rw [if_neg hsep, if_neg hsep]
  conv_lhs => rw [splitGo]
  rw [hf]
  dsimp only
  congr 1
  have hle := firstIdx_some_le s sep i hf hsep
  have hpos : 0 < sep.length := List.length_pos.mpr hsep
  exact splitGo_fuel sep hsep s.length ((s.drop (i + sep.length)).length + 1)
    (s.drop (i + sep.length)) (by rw [List.length_drop]; omega) (by omega)

theorem jsSplit_single (s sep : Str) (hsep : sep ≠ []) (h : jsIncludes s sep = false) :
    jsSplit s sep = [s] := by
  have hf : firstIdx s sep = none := by
    unfold jsIncludes at h
    cases hx : firstIdx s sep
    · rfl
    · rw [hx] at h; cases h
  unfold jsSplit
  rw [if_neg hsep]
  conv_lhs => rw [splitGo]
  rw [hf]

theorem matchAt_append_inner (x y sub : Str) (i : Nat) (h : i + sub.length ≤ x.length) :
    MatchAt (x ++ y) sub i ↔ MatchAt x sub i := by
  unfold MatchAt
  rw [List.drop_append_of_le_length (by omega),
      List.take_append_of_le_length (by rw [List.length_drop]; omega)]

theorem matchAt_append_right (x y sub : Str) (i : Nat) :
    MatchAt (x ++ y) sub (x.length + i) ↔ MatchAt y sub i := by
  unfold MatchAt
  rw [List.drop_append]

theorem matchAt_boundary (a sep b : Str) : MatchAt (a ++ (sep ++ b)) sep a.length := by
  unfold MatchAt
  rw [List.drop_left, List.take_left]

theorem matchAt_allP (s sub : Str) (i : Nat) (P : Char → Bool) (h : MatchAt s sub i)
    (hs : ∀ c ∈ s, P c = true) : ∀ c ∈ sub, P c = true := by
  intro c hc
  unfold MatchAt at h
  rw [← h] at hc
  exact hs c (List.mem_of_mem_drop (List.mem_of_mem_take hc))

theorem startsWith_allP (y q : Str) (P : Char → Bool) (h : StartsWith y q)
    (hy : ∀ c ∈ y, P c = true) : ∀ c ∈ q, P c = true := by
  intro c hc
  unfold StartsWith at h
  rw [← h] at hc
  exact hy c (List.mem_of_mem_take hc)

theorem endsWith_allP (x p : Str) (P : Char → Bool) (h : EndsWith x p)
    (hx : ∀ c ∈ x, P c = true) : ∀ c ∈ p, P c = true := by
  intro c hc
  unfold EndsWith at h
  rw [← h] at hc
  exact hx c (List.mem_of_mem_drop hc)

theorem startsWith_take (y : Str) (m : Nat) : StartsWith y (y.take m) := by
  unfold StartsWith
  rcases Nat.le_total m y.length with h | h
  · rw [List.length_take, Nat.min_eq_left h]
  · rw [List.take_of_length_le h, List.take_length]

theorem jsIncludes_false_of_allP (s sub : Str) (P : Char → Bool)
    (hs : ∀ c ∈ s, P c = true) (h3 : sub.all P = false) :
    jsIncludes s sub = false := by
  cases hinc : jsIncludes s sub
  · rfl
  · obtain ⟨i, hm⟩ := (jsIncludes_true_iff s sub).mp hinc
    have := List.all_eq_true.mpr (matchAt_allP s sub i P hm hs)
    rw [h3] at this
    cases this

theorem occursIn_append_cases (x y sub : Str) (i : Nat) (h : MatchAt (x ++ y) sub i) :
    (∃ i2, MatchAt x sub i2) ∨ (∃ i2, MatchAt y sub i2) ∨
    (∃ k, 0 < k ∧ k < sub.length ∧ EndsWith x (sub.take k) ∧ StartsWith y (sub.drop k)) := by
  by_cases hin : i + sub.length ≤ x.length
  · exact Or.inl ⟨i, (matchAt_append_inner x y sub i hin).mp h⟩
  by_cases hr : x.length ≤ i
  · refine Or.inr (Or.inl ⟨i - x.length, ?_⟩)
    have heq : x.length + (i - x.length) = i := by omega
    rw [← heq] at h
    exact (matchAt_append_right x y sub (i - x.length)).mp h
  · push_neg at hin hr
    have hwin : sub = x.drop i ++ y.take (sub.length - (x.length - i)) := by
      unfold MatchAt at h
      rw [List.drop_append_of_le_length (by omega)] at h
      rw [List.take_append_eq_append_take] at h
      rw [List.take_of_length_le (by rw [List.length_drop]; omega)] at h
      rw [List.length_drop] at h
      exact h.symm
    refine Or.inr (Or.inr ⟨x.length - i, by omega, by omega, ?_, ?_⟩)
    · unfold EndsWith
      have hlen1 : (sub.take (x.length - i)).length = x.length - i := by
        rw [List.length_take]
        omega
      rw [hlen1]
      have : x.length - (x.length - i) = i := by omega
      rw [this, hwin]
      rw [List.take_append_of_le_length (by rw [List.length_drop])]
      rw [List.take_of_length_le (by rw [List.length_drop])]
    · have hdrop : sub.drop (x.length - i) = y.take (sub.length - (x.length - i)) := by
        rw [hwin]
        rw [List.drop_append_eq_append_drop]
        rw [List.drop_of_length_le (by rw [List.length_drop])]
        rw [List.length_drop]
        rw [show x.length - i - (x.length - i) = 0 from by omega]
        simp
      rw [hdrop]
      exact startsWith_take y _

theorem startsWith_append_cases (x y q : Str) (h : StartsWith (x ++ y) q) :
    (q.length ≤ x.length ∧ StartsWith x q) ∨
    (x.length < q.length ∧ q.take x.length = x ∧ StartsWith y (q.drop x.length)) := by
  unfold StartsWith at h
  by_cases hl : q.length ≤ x.length
  · left
    rw [List.take_append_of_le_length hl] at h
    exact ⟨hl, h⟩
  · right
    push_neg at hl
    rw [List.take_append_eq_append_take, List.take_of_length_le (by omega)] at h
    refine ⟨hl, ?_, ?_⟩
    · rw [← h, List.take_left]
    · rw [← h, List.drop_left]
      exact startsWith_take y _

theorem startsWith_mid_append (mid B q : Str) (P : Char → Bool)
    (hmid : ∀ c ∈ mid, P c = true) (h : StartsWith (mid ++ B) q) :
    ∃ j, j ≤ q.length ∧ (q.take j).all P = true ∧
      (q.drop j = [] ∨ StartsWith B (q.drop j)) := by
  rcases startsWith_append_cases mid B q h with ⟨hl, hs⟩ | ⟨hl, ht, hs⟩
  · refine ⟨q.length, Nat.le_refl _, ?_, Or.inl (by simp)⟩
    rw [List.take_length, List.all_eq_true]
    exact startsWith_allP mid q P hs hmid
  · refine ⟨mid.length, by omega, ?_, Or.inr hs⟩
    rw [ht, List.all_eq_true]
    exact hmid

/-- Master refutation lemma: a pattern that contains a character outside the
alphabet P does not occur in a string of the form A ++ mid ++ B when mid is
drawn from P and the finitely many concrete placements relative to A and B
are all excluded; every hypothesis is decidable when A, B and sub are
concrete. -/
theorem jsIncludes_false_shape (A mid B sub : Str) (P : Char → Bool)
    (hmid : ∀ c ∈ mid, P c = true)
    (h1 : jsIncludes A sub = false)
    (h2 : jsIncludes B sub = false)
    (h3 : sub.all P = false)
    (h4a : ∀ k, k < sub.length - 1 → EndsWith A (sub.take (k + 1)) →
       ∀ j, j ≤ (sub.drop (k + 1)).length → ((sub.drop (k + 1)).take j).all P = true →
         (sub.drop (k + 1)).drop j ≠ [])
    (h4b : ∀ k, k < sub.length - 1 → EndsWith A (sub.take (k + 1)) →
       ∀ j, j ≤ (sub.drop (k + 1)).length → ((sub.drop (k + 1)).take j).all P = true →
         ¬ StartsWith B ((sub.drop (k + 1)).drop j))
    (h5 : ∀ k, k < sub.length - 1 → (sub.take (k + 1)).all P = true →
       ¬ StartsWith B (sub.drop (k + 1))) :
    jsIncludes (A ++ (mid ++ B)) sub = false := by
  cases hinc : jsIncludes (A ++ (mid ++ B)) sub
  · rfl
  · exfalso
    obtain ⟨i, hm⟩ := (jsIncludes_true_iff _ _).mp hinc
    rcases occursIn_append_cases A (mid ++ B) sub i hm with
      ⟨i2, hx⟩ | ⟨i2, hy⟩ | ⟨k, hk0, hkl, he, hs⟩
    · exact (jsIncludes_false_iff A sub).mp h1 i2 hx
    · rcases occursIn_append_cases mid B sub i2 hy with
        ⟨i3, hmM⟩ | ⟨i3, hB⟩ | ⟨k, hk0, hkl, he, hs⟩
      · have hall := List.all_eq_true.mpr (matchAt_allP mid sub i3 P hmM hmid)
        rw [h3] at hall
        cases hall
      · exact (jsIncludes_false_iff B sub).mp h2 i3 hB
      · have hall : (sub.take k).all P = true :=
          List.all_eq_true.mpr (endsWith_allP mid (sub.take k) P he hmid)
        have hkk : k = k - 1 + 1 := by omega
        rw [hkk] at hall hs
        exact h5 (k - 1) (by omega) hall hs
    · obtain ⟨j, hj1, hj2, hj3⟩ := startsWith_mid_append mid B (sub.drop k) P hmid hs
      have hkk : k = k - 1 + 1 := by omega
      rw [hkk] at he hj1 hj2 hj3
      rcases hj3 with hnil | hsw
      · exact h4a (k - 1) (by omega) he j hj1 hj2 hnil
      · exact h4b (k - 1) (by omega) he j hj1 hj2 hsw

theorem jsIncludes_false_prefix_allP (A mid sub : Str) (P : Char → Bool)
    (hmid : ∀ c ∈ mid, P c = true)
    (h1 : jsIncludes A sub = false)
    (h3 : sub.all P = false)
    (h4 : ∀ k, k < sub.length - 1 → EndsWith A (sub.take (k + 1)) →
        (sub.drop (k + 1)).all P = false) :
    jsIncludes (A ++ mid) sub = false := by
  cases hinc : jsIncludes (A ++ mid) sub
  · rfl
  · exfalso
    obtain ⟨i, hm⟩ := (jsIncludes_true_iff _ _).mp hinc
    rcases occursIn_append_cases A mid sub i hm with
      ⟨i2, hx⟩ | ⟨i2, hy⟩ | ⟨k, hk0, hkl, he, hs⟩
    · exact (jsIncludes_false_iff A sub).mp h1 i2 hx
    · have hall := List.all_eq_true.mpr (matchAt_allP mid sub i2 P hy hmid)
      rw [h3] at hall
      cases hall
    · have hkk : k = k - 1 + 1 := by omega
      rw [hkk] at he hs
      have hall : ((sub.drop (k - 1 + 1)).all P) = true :=
        List.all_eq_true.mpr (startsWith_allP mid _ P hs hmid)
      have hf := h4 (k - 1) (by omega) he
      rw [hall] at hf
      cases hf

theorem noEarly_concrete (a sep b : Str)
    (hd : ∀ j, j < a.length → ¬ MatchAt (a ++ sep) sep j) :
    ∀ j, j < a.length → ¬ MatchAt (a ++ (sep ++ b)) sep j := by
  intro j hj hm
  rw [show a ++ (sep ++ b) = (a ++ sep) ++ b from by rw [List.append_assoc]] at hm
  refine hd j hj ?_
  exact (matchAt_append_inner (a ++ sep) b sep j (by rw [List.length_append]; omega)).mp hm

theorem jsSplit_append_first (a sep b : Str) (hsep : sep ≠ [])
    (h2 : ∀ j, j < a.length → ¬ MatchAt (a ++ (sep ++ b)) sep j) :
    jsSplit (a ++ (sep ++ b)) sep = a :: jsSplit b sep := by
  have h1 : MatchAt (a ++ (sep ++ b)) sep a.length := matchAt_boundary a sep b
  have hf : firstIdx (a ++ (sep ++ b)) sep = some a.length :=
    firstIdx_of_first _ _ _ h1 h2
  rw [jsSplit_cons_eq _ _ hsep _ hf]
  congr 1
  · exact List.take_left a (sep ++ b)
  · rw [List.drop_append, List.drop_left]

theorem jsSplit_append_first_concrete (a sep b : Str) (hsep : sep ≠ [])
    (hd : ∀ j, j < a.length → ¬ MatchAt (a ++ sep) sep j) :
    jsSplit (a ++ (sep ++ b)) sep = a :: jsSplit b sep :=
  jsSplit_append_first a sep b hsep (noEarly_concrete a sep b hd)

theorem matchAt_char (s : Str) (c : Char) (j : Nat) (h : MatchAt s [c] j) :
    s[j]? = some c := by
  unfold MatchAt at h
  have : s[j]? = (s.drop j)[0]? := by
    rw [List.getElem?_drop]
    norm_num
  rw [this]
  cases hd : s.drop j with
  | nil => rw [hd] at h; cases h
  | cons a t =>
    rw [hd] at h
    have ha : a = c := by
      have h2 : ([a] : Str) = [c] := by simpa using h
      injection h2
    rw [ha]
    simp

theorem no_early_char (a mid rest : Str) (c : Char) (P : Char → Bool)
    (hmid : ∀ x ∈ mid, P x = true) (hc : P c = false) (ha : c ∉ a) :
    ∀ j, j < (a ++ mid).length → ¬ MatchAt ((a ++ mid) ++ ([c] ++ rest)) [c] j := by
  intro j hj hm
  have hg := matchAt_char _ c j hm
  rw [List.getElem?_append_left hj] at hg
  by_cases hja : j < a.length
  · rw [List.getElem?_append_left hja] at hg
    exact ha (List.getElem?_mem hg)
  · rw [List.getElem?_append_right (by omega)] at hg
    have hcm : c ∈ mid := List.getElem?_mem hg
    rw [hmid c hcm] at hc
    cases hc

theorem jsSplit_concat_char (a mid b : Str) (c : Char) (P : Char → Bool)
    (hmid : ∀ x ∈ mid, P x = true) (hc : P c = false) (ha : c ∉ a) :
    jsSplit ((a ++ mid) ++ ([c] ++ b)) [c] = (a ++ mid) :: jsSplit b [c] := by
  have hsh : (a ++ mid) ++ ([c] ++ b) = (a ++ mid) ++ ([c] ++ b) := rfl
  exact jsSplit_append_first (a ++ mid) [c] b (by simp)
    (no_early_char a mid b c P hmid hc ha)

theorem jsSplit_mid_char (mid b : Str) (c : Char) (P : Char → Bool)
    (hmid : ∀ x ∈ mid, P x = true) (hc : P c = false) :
    jsSplit (mid ++ ([c] ++ b)) [c] = mid :: jsSplit b [c] := by
  apply jsSplit_append_first mid [c] b (by simp)
  intro j hj hm
  have hg := matchAt_char _ c j hm
  rw [List.getElem?_append_left hj] at hg
  have hcm : c ∈ mid := List.getElem?_mem hg
  rw [hmid c hcm] at hc
  cases hc

-- ===== C7 platform computations =====

theorem jsGetD_cons_zero (x : Str) (l : List Str) : jsGetD (x :: l) 0 = x := rfl

theorem jsGetD_cons_one (x y : Str) (l : List Str) : jsGetD (x :: y :: l) 1 = y := rfl

theorem convertToEmbedUrl_tw1 (ch : Str) (hne : ch ≠ [])
    (hP : ∀ c ∈ ch, c.isAlphanum = true) :
    convertToEmbedUrl hostName (("https://twitch.tv/".data) ++ ch) false =
      .ok ((("https://player.twitch.tv/?channel=".data) ++ ch ++
        ("&parent=".data)) ++ hostName) := by
  have hy1 : jsIncludes (("https://twitch.tv/".data) ++ ch) ("youtube.com".data) = false :=
    jsIncludes_false_prefix_allP _ ch _ Char.isAlphanum hP (by decide) (by decide) (by decide)
  have hy2 : jsIncludes (("https://twitch.tv/".data) ++ ch) ("youtu.be".data) = false :=
    jsIncludes_false_prefix_allP _ ch _ Char.isAlphanum hP (by decide) (by decide) (by decide)
  have htw : jsIncludes (("https://twitch.tv/".data) ++ ch) ("twitch.tv".data) = true :=
    jsIncludes_true_of_matchAt _ _ 8
      ((matchAt_append_inner ("https://twitch.tv/".data) ch ("twitch.tv".data) 8
        (by decide)).mpr (by decide))
  have hnv : jsIncludes (("https://twitch.tv/".data) ++ ch) ("/videos/".data) = false :=
    jsIncludes_false_prefix_allP _ ch _ Char.isAlphanum hP (by decide) (by decide) (by decide)
  have hc1 : ¬ ((jsIncludes (("https://twitch.tv/".data) ++ ch) ("youtube.com".data) ||
      jsIncludes (("https://twitch.tv/".data) ++ ch) ("youtu.be".data)) = true) := by
    rw [hy1, hy2]; decide
  have hcv : ¬ (jsIncludes (("https://twitch.tv/".data) ++ ch) ("/videos/".data) = true) := by
    rw [hnv]; decide
  have hcat : ("https://twitch.tv/".data : Str) =
      ("https://".data) ++ ("twitch.tv/".data) := by decide
  have hsplit1 : jsSplit (("https://twitch.tv/".data) ++ ch) ("twitch.tv/".data) =
      ["https://".data, ch] := by
    calc jsSplit (("https://twitch.tv/".data) ++ ch) ("twitch.tv/".data)
        = jsSplit (("https://".data) ++ (("twitch.tv/".data) ++ ch)) ("twitch.tv/".data) := by
            rw [hcat, List.append_assoc]
      _ = ("https://".data) :: jsSplit ch ("twitch.tv/".data) :=
          jsSplit_append_first_concrete _ _ _ (by decide) (by decide)
      _ = ["https://".data, ch] := by
          rw [jsSplit_single ch ("twitch.tv/".data) (by decide)
            (jsIncludes_false_of_allP ch ("twitch.tv/".data) Char.isAlphanum hP (by decide))]
  have hsplitS : jsSplit ch ("/".data) = [ch] :=
    jsSplit_single ch ("/".data) (by decide)
      (jsIncludes_false_of_allP ch ("/".data) Char.isAlphanum hP (by decide))
  have hsplitQ : jsSplit ch ("?".data) = [ch] :=
    jsSplit_single ch ("?".data) (by decide)
      (jsIncludes_false_of_allP ch ("?".data) Char.isAlphanum hP (by decide))
  unfold convertToEmbedUrl
  rw [if_neg hc1, if_pos htw]
  unfold convertTwitchUrl
  rw [if_neg hcv, hsplit1, jsGetD_cons_one]
  simp only [if_pos hne, hsplitS, jsGetD_cons_zero, hsplitQ, if_neg hne]
  rfl


theorem convertToEmbedUrl_tw2 (ch : Str) (hP : ∀ c ∈ ch, c.isAlphanum = true) :
    convertToEmbedUrl hostName
      ((("https://player.twitch.tv/?channel=".data) ++ ch ++ ("&parent=".data)) ++ hostName)
      false = .error ("Could not extract Twitch channel".data) := by
  have hU : ((("https://player.twitch.tv/?channel=".data) ++ ch ++ ("&parent=".data)) ++
      hostName : Str) =
      ("https://player.twitch.tv/?channel=".data) ++ (ch ++ ("&parent=localhost".data)) := by
    rw [List.append_assoc, List.append_assoc,
      show (("&parent=".data : Str) ++ hostName) = ("&parent=localhost".data) from by decide]
  have hy1 : jsIncludes (("https://player.twitch.tv/?channel=".data) ++
      (ch ++ ("&parent=localhost".data))) ("youtube.com".data) = false :=
    jsIncludes_false_shape _ ch _ _ Char.isAlphanum hP
      (by decide) (by decide) (by decide) (by decide) (by decide) (by decide)
  have hy2 : jsIncludes (("https://player.twitch.tv/?channel=".data) ++
      (ch ++ ("&parent=localhost".data))) ("youtu.be".data) = false :=
    jsIncludes_false_shape _ ch _ _ Char.isAlphanum hP
      (by decide) (by decide) (by decide) (by decide) (by decide) (by decide)
  have htw : jsIncludes (("https://player.twitch.tv/?channel=".data) ++
      (ch ++ ("&parent=localhost".data))) ("twitch.tv".data) = true :=
    jsIncludes_true_of_matchAt _ _ 15
      ((matchAt_append_inner ("https://player.twitch.tv/?channel=".data)
        (ch ++ ("&parent=localhost".data)) ("twitch.tv".data) 15 (by decide)).mpr (by decide))
  have hnv : jsIncludes (("https://player.twitch.tv/?channel=".data) ++
      (ch ++ ("&parent=localhost".data))) ("/videos/".data) = false :=
    jsIncludes_false_shape _ ch _ _ Char.isAlphanum hP
      (by decide) (by decide) (by decide) (by decide) (by decide) (by decide)
  have hc1 : ¬ ((jsIncludes (("https://player.twitch.tv/?channel=".data) ++
      (ch ++ ("&parent=localhost".data))) ("youtube.com".data) ||
      jsIncludes (("https://player.twitch.tv/?channel=".data) ++
      (ch ++ ("&parent=localhost".data))) ("youtu.be".data)) = true) := by
    rw [hy1, hy2]; decide
  have hcv : ¬ (jsIncludes (("https://player.twitch.tv/?channel=".data) ++
      (ch ++ ("&parent=localhost".data))) ("/videos/".data) = true) := by
    rw [hnv]; decide
  have hrest : jsIncludes (("?channel=".data) ++ (ch ++ ("&parent=localhost".data)))
      ("twitch.tv/".data) = false :=
    jsIncludes_false_shape _ ch _ _ Char.isAlphanum hP
      (by decide) (by decide) (by decide) (by decide) (by decide) (by decide)
  have hsplit1 : jsSplit (("https://player.twitch.tv/?channel=".data) ++
      (ch ++ ("&parent=localhost".data))) ("twitch.tv/".data) =
      ["https://player.".data, ("?channel=".data) ++ (ch ++ ("&parent=localhost".data))] := by
    calc jsSplit (("https://player.twitch.tv/?channel=".data) ++
          (ch ++ ("&parent=localhost".data))) ("twitch.tv/".data)
        = jsSplit (("https://player.".data) ++ (("twitch.tv/".data) ++
            (("?channel=".data) ++ (ch ++ ("&parent=localhost".data))))) ("twitch.tv/".data) := by
            rw [show ("https://player.twitch.tv/?channel=".data : Str) =
              ("https://player.".data) ++ (("twitch.tv/".data) ++ ("?channel=".data)) from by decide]
            simp only [List.append_assoc]
      _ = ("https://player.".data) :: jsSplit (("?channel=".data) ++
            (ch ++ ("&parent=localhost".data))) ("twitch.tv/".data) :=
          jsSplit_append_first_concrete _ _ _ (by decide) (by decide)
      _ = ["https://player.".data, ("?channel=".data) ++ (ch ++ ("&parent=localhost".data))] := by
          rw [jsSplit_single _ _ (by decide) hrest]
  have hpne : (("?channel=".data) ++ (ch ++ ("&parent=localhost".data)) : Str) ≠ [] := by simp
  have hsplitS : jsSplit (("?channel=".data) ++ (ch ++ ("&parent=localhost".data)))
      ("/".data) = [("?channel=".data) ++ (ch ++ ("&parent=localhost".data))] :=
    jsSplit_single _ _ (by decide)
      (jsIncludes_false_shape _ ch _ _ Char.isAlphanum hP
        (by decide) (by decide) (by decide) (by decide) (by decide) (by decide))
  have hsq0 : jsSplit ((['?'] : Str) ++ (("channel=".data) ++
      (ch ++ ("&parent=localhost".data)))) ['?'] =
      [] :: jsSplit (("channel=".data) ++ (ch ++ ("&parent=localhost".data))) ['?'] :=
    jsSplit_mid_char [] _ '?' Char.isAlphanum (by simp) (by decide)
  have hsq : jsSplit (("?channel=".data) ++ (ch ++ ("&parent=localhost".data))) ("?".data) =
      [] :: jsSplit (("channel=".data) ++ (ch ++ ("&parent=localhost".data))) ['?'] := by
    rw [show ("?".data : Str) = ['?'] from rfl,
      show (("?channel=".data : Str) ++ (ch ++ ("&parent=localhost".data))) =
        (['?'] : Str) ++ (("channel=".data) ++ (ch ++ ("&parent=localhost".data))) from by
          rw [show ("?channel=".data : Str) = (['?'] : Str) ++ ("channel=".data) from by decide]
          simp only [List.append_assoc]]
    exact hsq0
  rw [hU]
  unfold convertToEmbedUrl
  rw [if_neg hc1, if_pos htw]
  unfold convertTwitchUrl
  rw [if_neg hcv, hsplit1, jsGetD_cons_one]
  simp only [if_pos hpne, hsplitS, jsGetD_cons_zero, hsq]
  simp

theorem convertToEmbedUrl_vm1 (vid : Str) (hne : vid ≠ [])
    (hP : ∀ c ∈ vid, c.isAlphanum = true) :
    convertToEmbedUrl hostName (("https://vimeo.com/".data) ++ vid) false =
      .ok (("https://player.vimeo.com/video/".data) ++ vid ++
        ("?title=0&byline=0&portrait=0".data)) := by
  have hy1 : jsIncludes (("https://vimeo.com/".data) ++ vid) ("youtube.com".data) = false :=
    jsIncludes_false_prefix_allP _ vid _ Char.isAlphanum hP (by decide) (by decide) (by decide)
  have hy2 : jsIncludes (("https://vimeo.com/".data) ++ vid) ("youtu.be".data) = false :=
    jsIncludes_false_prefix_allP _ vid _ Char.isAlphanum hP (by decide) (by decide) (by decide)
  have hntw : jsIncludes (("https://vimeo.com/".data) ++ vid) ("twitch.tv".data) = false :=
    jsIncludes_false_prefix_allP _ vid _ Char.isAlphanum hP (by decide) (by decide) (by decide)
  have hvm : jsIncludes (("https://vimeo.com/".data) ++ vid) ("vimeo.com".data) = true :=
    jsIncludes_true_of_matchAt _ _ 8
      ((matchAt_append_inner ("https://vimeo.com/".data) vid ("vimeo.com".data) 8
        (by decide)).mpr (by decide))
  have hvmS : jsIncludes (("https://vimeo.com/".data) ++ vid) ("vimeo.com/".data) = true :=
    jsIncludes_true_of_matchAt _ _ 8
      ((matchAt_append_inner ("https://vimeo.com/".data) vid ("vimeo.com/".data) 8
        (by decide)).mpr (by decide))
  have hc1 : ¬ ((jsIncludes (("https://vimeo.com/".data) ++ vid) ("youtube.com".data) ||
      jsIncludes (("https://vimeo.com/".data) ++ vid) ("youtu.be".data)) = true) := by
    rw [hy1, hy2]; decide
  have hc2 : ¬ (jsIncludes (("https://vimeo.com/".data) ++ vid) ("twitch.tv".data) = true) := by
    rw [hntw]; decide
  have hsplit1 : jsSplit (("https://vimeo.com/".data) ++ vid) ("vimeo.com/".data) =
      ["https://".data, vid] := by
    calc jsSplit (("https://vimeo.com/".data) ++ vid) ("vimeo.com/".data)
        = jsSplit (("https://".data) ++ (("vimeo.com/".data) ++ vid)) ("vimeo.com/".data) := by
            rw [show ("https://vimeo.com/".data : Str) =
              ("https://".data) ++ ("vimeo.com/".data) from by decide, List.append_assoc]
      _ = ("https://".data) :: jsSplit vid ("vimeo.com/".data) :=
          jsSplit_append_first_concrete _ _ _ (by decide) (by decide)
      _ = ["https://".data, vid] := by
          rw [jsSplit_single vid ("vimeo.com/".data) (by decide)
            (jsIncludes_false_of_allP vid ("vimeo.com/".data) Char.isAlphanum hP (by decide))]
  have hsQ : jsSplit vid ("?".data) = [vid] :=
    jsSplit_single vid ("?".data) (by decide)
      (jsIncludes_false_of_allP vid ("?".data) Char.isAlphanum hP (by decide))
  have hsS : jsSplit vid ("/".data) = [vid] :=
    jsSplit_single vid ("/".data) (by decide)
      (jsIncludes_false_of_allP vid ("/".data) Char.isAlphanum hP (by decide))
  unfold convertToEmbedUrl
  rw [if_neg hc1, if_neg hc2, if_pos hvm]
  unfold convertVimeoUrl
  rw [if_pos hvmS, hsplit1, jsGetD_cons_one, hsQ, jsGetD_cons_zero, hsS, jsGetD_cons_zero]
  dsimp only
  rw [if_neg hne]
  rfl

theorem convertToEmbedUrl_vm2 (vid : Str) (hP : ∀ c ∈ vid, c.isAlphanum = true) :
    convertToEmbedUrl hostName
      (("https://player.vimeo.com/video/".data) ++ vid ++
        ("?title=0&byline=0&portrait=0".data)) false =
      .ok (("https://player.vimeo.com/video/".data) ++ ("video".data) ++
        ("?title=0&byline=0&portrait=0".data)) := by
  have hassoc : (("https://player.vimeo.com/video/".data) ++ vid ++
      ("?title=0&byline=0&portrait=0".data) : Str) =
      ("https://player.vimeo.com/video/".data) ++
        (vid ++ ("?title=0&byline=0&portrait=0".data)) :=
    List.append_assoc _ _ _
  have hy1 : jsIncludes (("https://player.vimeo.com/video/".data) ++
      (vid ++ ("?title=0&byline=0&portrait=0".data))) ("youtube.com".data) = false :=
    jsIncludes_false_shape _ vid _ _ Char.isAlphanum hP
      (by decide) (by decide) (by decide) (by decide) (by decide) (by decide)
  have hy2 : jsIncludes (("https://player.vimeo.com/video/".data) ++
      (vid ++ ("?title=0&byline=0&portrait=0".data))) ("youtu.be".data) = false :=
    jsIncludes_false_shape _ vid _ _ Char.isAlphanum hP
      (by decide) (by decide) (by decide) (by decide) (by decide) (by decide)
  have hntw : jsIncludes (("https://player.vimeo.com/video/".data) ++
      (vid ++ ("?title=0&byline=0&portrait=0".data))) ("twitch.tv".data) = false :=
    jsIncludes_false_shape _ vid _ _ Char.isAlphanum hP
      (by decide) (by decide) (by decide) (by decide) (by decide) (by decide)
  have hvm : jsIncludes (("https://player.vimeo.com/video/".data) ++
      (vid ++ ("?title=0&byline=0&portrait=0".data))) ("vimeo.com".data) = true :=
    jsIncludes_true_of_matchAt _ _ 15
      ((matchAt_append_inner ("https://player.vimeo.com/video/".data)
        (vid ++ ("?title=0&byline=0&portrait=0".data)) ("vimeo.com".data) 15
        (by decide)).mpr (by decide))
  have hvmS : jsIncludes (("https://player.vimeo.com/video/".data) ++
      (vid ++ ("?title=0&byline=0&portrait=0".data))) ("vimeo.com/".data) = true :=
    jsIncludes_true_of_matchAt _ _ 15
      ((matchAt_append_inner ("https://player.vimeo.com/video/".data)
        (vid ++ ("?title=0&byline=0&portrait=0".data)) ("vimeo.com/".data) 15
        (by decide)).mpr (by decide))
  have hc1 : ¬ ((jsIncludes (("https://player.vimeo.com/video/".data) ++
      (vid ++ ("?title=0&byline=0&portrait=0".data))) ("youtube.com".data) ||
      jsIncludes (("https://player.vimeo.com/video/".data) ++
      (vid ++ ("?title=0&byline=0&portrait=0".data))) ("youtu.be".data)) = true) := by
    rw [hy1, hy2]; decide
  have hc2 : ¬ (jsIncludes (("https://player.vimeo.com/video/".data) ++
      (vid ++ ("?title=0&byline=0&portrait=0".data))) ("twitch.tv".data) = true) := by
    rw [hntw]; decide
  have hrest : jsIncludes (("video/".data) ++ (vid ++ ("?title=0&byline=0&portrait=0".data)))
      ("vimeo.com/".data) = false :=
    jsIncludes_false_shape _ vid _ _ Char.isAlphanum hP
      (by decide) (by decide) (by decide) (by decide) (by decide) (by decide)
  have hsplit1 : jsSplit (("https://player.vimeo.com/video/".data) ++
      (vid ++ ("?title=0&byline=0&portrait=0".data))) ("vimeo.com/".data) =
      ["https://player.".data,
       ("video/".data) ++ (vid ++ ("?title=0&byline=0&portrait=0".data))] := by
    calc jsSplit (("https://player.vimeo.com/video/".data) ++
          (vid ++ ("?title=0&byline=0&portrait=0".data))) ("vimeo.com/".data)
        = jsSplit (("https://player.".data) ++ (("vimeo.com/".data) ++
            (("video/".data) ++ (vid ++ ("?title=0&byline=0&portrait=0".data)))))
            ("vimeo.com/".data) := by
            rw [show ("https://player.vimeo.com/video/".data : Str) =
              ("https://player.".data) ++ (("vimeo.com/".data) ++ ("video/".data)) from by decide]
            simp only [List.append_assoc]
      _ = ("https://player.".data) :: jsSplit (("video/".data) ++
            (vid ++ ("?title=0&byline=0&portrait=0".data))) ("vimeo.com/".data) :=
          jsSplit_append_first_concrete _ _ _ (by decide) (by decide)
      _ = ["https://player.".data,
           ("video/".data) ++ (vid ++ ("?title=0&byline=0&portrait=0".data))] := by
          rw [jsSplit_single _ _ (by decide) hrest]
  have hsq0 : jsSplit ((("video/".data) ++ vid) ++
      ((['?'] : Str) ++ ("title=0&byline=0&portrait=0".data))) ['?'] =
      (("video/".data) ++ vid) :: jsSplit ("title=0&byline=0&portrait=0".data) ['?'] :=
    jsSplit_concat_char _ vid _ '?' Char.isAlphanum hP (by decide) (by decide)
  have hsq : jsSplit (("video/".data) ++ (vid ++ ("?title=0&byline=0&portrait=0".data)))
      ("?".data) =
      (("video/".data) ++ vid) :: jsSplit ("title=0&byline=0&portrait=0".data) ['?'] := by
    rw [show ("?".data : Str) = ['?'] from rfl,
      show (("video/".data) ++ (vid ++ ("?title=0&byline=0&portrait=0".data)) : Str) =
        (("video/".data) ++ vid) ++ ((['?'] : Str) ++
          ("title=0&byline=0&portrait=0".data)) from by
        rw [show ("?title=0&byline=0&portrait=0".data : Str) =
          (['?'] : Str) ++ ("title=0&byline=0&portrait=0".data) from by decide]
        simp only [List.append_assoc]]
    exact hsq0
  have hsd0 : jsSplit (("video".data) ++ ((['/'] : Str) ++ vid)) ['/'] =
      ("video".data) :: jsSplit vid ['/'] :=
    jsSplit_mid_char _ vid '/' Char.isAlphanum (by decide) (by decide)
  have hsd : jsSplit (("video/".data) ++ vid) ("/".data) =
      ("video".data) :: jsSplit vid ['/'] := by
    rw [show ("/".data : Str) = ['/'] from rfl,
      show (("video/".data) ++ vid : Str) = ("video".data) ++ ((['/'] : Str) ++ vid) from by
        rw [show ("video/".data : Str) = ("video".data) ++ (['/'] : Str) from by decide]
        simp only [List.append_assoc]]
    exact hsd0
  rw [hassoc]
  unfold convertToEmbedUrl
  rw [if_neg hc1, if_neg hc2, if_pos hvm]
  unfold convertVimeoUrl
  rw [if_pos hvmS, hsplit1, jsGetD_cons_one, hsq, jsGetD_cons_zero, hsd, jsGetD_cons_zero]
  dsimp only
  rw [if_neg (show ("video".data : Str) ≠ [] from by decide)]
  rfl

theorem convertToEmbedUrl_dm1 (vid : Str) (hne : vid ≠ [])
    (hP : ∀ c ∈ vid, c.isAlphanum = true) :
    convertToEmbedUrl hostName (("https://www.dailymotion.com/video/".data) ++ vid) false =
      .ok (("https://www.dailymotion.com/embed/video/".data) ++ vid ++
        ("?ui-logo=0".data)) := by
  have hy1 : jsIncludes (("https://www.dailymotion.com/video/".data) ++ vid)
      ("youtube.com".data) = false :=
    jsIncludes_false_prefix_allP _ vid _ Char.isAlphanum hP (by decide) (by decide) (by decide)
  have hy2 : jsIncludes (("https://www.dailymotion.com/video/".data) ++ vid)
      ("youtu.be".data) = false :=
    jsIncludes_false_prefix_allP _ vid _ Char.isAlphanum hP (by decide) (by decide) (by decide)
  have hntw : jsIncludes (("https://www.dailymotion.com/video/".data) ++ vid)
      ("twitch.tv".data) = false :=
    jsIncludes_false_prefix_allP _ vid _ Char.isAlphanum hP (by decide) (by decide) (by decide)
  have hnvm : jsIncludes (("https://www.dailymotion.com/video/".data) ++ vid)
      ("vimeo.com".data) = false :=
    jsIncludes_false_prefix_allP _ vid _ Char.isAlphanum hP (by decide) (by decide) (by decide)
  have hdm : jsIncludes (("https://www.dailymotion.com/video/".data) ++ vid)
      ("dailymotion.com".data) = true :=
    jsIncludes_true_of_matchAt _ _ 12
      ((matchAt_append_inner ("https://www.dailymotion.com/video/".data) vid
        ("dailymotion.com".data) 12 (by decide)).mpr (by decide))
  have hdv : jsIncludes (("https://www.dailymotion.com/video/".data) ++ vid)
      ("dailymotion.com/video/".data) = true :=
    jsIncludes_true_of_matchAt _ _ 12
      ((matchAt_append_inner ("https://www.dailymotion.com/video/".data) vid
        ("dailymotion.com/video/".data) 12 (by decide)).mpr (by decide))
  have hc1 : ¬ ((jsIncludes (("https://www.dailymotion.com/video/".data) ++ vid)
      ("youtube.com".data) ||
      jsIncludes (("https://www.dailymotion.com/video/".data) ++ vid)
      ("youtu.be".data)) = true) := by
    rw [hy1, hy2]; decide
  have hc2 : ¬ (jsIncludes (("https://www.dailymotion.com/video/".data) ++ vid)
      ("twitch.tv".data) = true) := by
    rw [hntw]; decide
  have hc3 : ¬ (jsIncludes (("https://www.dailymotion.com/video/".data) ++ vid)
      ("vimeo.com".data) = true) := by
    rw [hnvm]; decide
  have hsplit1 : jsSplit (("https://www.dailymotion.com/video/".data) ++ vid)
      ("/video/".data) = ["https://www.dailymotion.com".data, vid] := by
    calc jsSplit (("https://www.dailymotion.com/video/".data) ++ vid) ("/video/".data)
        = jsSplit (("https://www.dailymotion.com".data) ++ (("/video/".data) ++ vid))
            ("/video/".data) := by
            rw [show ("https://www.dailymotion.com/video/".data : Str) =
              ("https://www.dailymotion.com".data) ++ ("/video/".data) from by decide,
              List.append_assoc]
      _ = ("https://www.dailymotion.com".data) :: jsSplit vid ("/video/".data) :=
          jsSplit_append_first_concrete _ _ _ (by decide) (by decide)
      _ = ["https://www.dailymotion.com".data, vid] := by
          rw [jsSplit_single vid ("/video/".data) (by decide)
            (jsIncludes_false_of_allP vid ("/video/".data) Char.isAlphanum hP (by decide))]
  have hsQ : jsSplit vid ("?".data) = [vid] :=
    jsSplit_single vid ("?".data) (by decide)
      (jsIncludes_false_of_allP vid ("?".data) Char.isAlphanum hP (by decide))
  have hsU : jsSplit vid ("_".data) = [vid] :=
    jsSplit_single vid ("_".data) (by decide)
      (jsIncludes_false_of_allP vid ("_".data) Char.isAlphanum hP (by decide))
  unfold convertToEmbedUrl
  rw [if_neg hc1, if_neg hc2, if_neg hc3, if_pos (by rw [hdm]; simp)]
  unfold convertDailyMotionUrl
  rw [if_pos hdv, hsplit1, jsGetD_cons_one, hsQ, jsGetD_cons_zero, hsU, jsGetD_cons_zero]
  dsimp only
  rw [if_neg hne]
  rfl

theorem convertToEmbedUrl_dm2 (vid : Str) (hP : ∀ c ∈ vid, c.isAlphanum = true) :
    convertToEmbedUrl hostName
      (("https://www.dailymotion.com/embed/video/".data) ++ vid ++ ("?ui-logo=0".data))
      false = .error ("Could not extract DailyMotion video ID".data) := by
  have hassoc : (("https://www.dailymotion.com/embed/video/".data) ++ vid ++
      ("?ui-logo=0".data) : Str) =
      ("https://www.dailymotion.com/embed/video/".data) ++ (vid ++ ("?ui-logo=0".data)) :=
    List.append_assoc _ _ _
  have hy1 : jsIncludes (("https://www.dailymotion.com/embed/video/".data) ++
      (vid ++ ("?ui-logo=0".data))) ("youtube.com".data) = false :=
    jsIncludes_false_shape _ vid _ _ Char.isAlphanum hP
      (by decide) (by decide) (by decide) (by decide) (by decide) (by decide)
  have hy2 : jsIncludes (("https://www.dailymotion.com/embed/video/".data) ++
      (vid ++ ("?ui-logo=0".data))) ("youtu.be".data) = false :=
    jsIncludes_false_shape _ vid _ _ Char.isAlphanum hP
      (by decide) (by decide) (by decide) (by decide) (by decide) (by decide)
  have hntw : jsIncludes (("https://www.dailymotion.com/embed/video/".data) ++
      (vid ++ ("?ui-logo=0".data))) ("twitch.tv".data) = false :=
    jsIncludes_false_shape _ vid _ _ Char.isAlphanum hP
      (by decide) (by decide) (by decide) (by decide) (by decide) (by decide)
  have hnvm : jsIncludes (("https://www.dailymotion.com/embed/video/".data) ++
      (vid ++ ("?ui-logo=0".data))) ("vimeo.com".data) = false :=
    jsIncludes_false_shape _ vid _ _ Char.isAlphanum hP
      (by decide) (by decide) (by decide) (by decide) (by decide) (by decide)
  have hdm : jsIncludes (("https://www.dailymotion.com/embed/video/".data) ++
      (vid ++ ("?ui-logo=0".data))) ("dailymotion.com".data) = true :=
    jsIncludes_true_of_matchAt _ _ 12
      ((matchAt_append_inner ("https://www.dailymotion.com/embed/video/".data)
        (vid ++ ("?ui-logo=0".data)) ("dailymotion.com".data) 12 (by decide)).mpr (by decide))
  have hndv : jsIncludes (("https://www.dailymotion.com/embed/video/".data) ++
      (vid ++ ("?ui-logo=0".data))) ("dailymotion.com/video/".data) = false :=
    jsIncludes_false_shape _ vid _ _ Char.isAlphanum hP
      (by decide) (by decide) (by decide) (by decide) (by decide) (by decide)
  have hndl : jsIncludes (("https://www.dailymotion.com/embed/video/".data) ++
      (vid ++ ("?ui-logo=0".data))) ("dai.ly/".data) = false :=
    jsIncludes_false_shape _ vid _ _ Char.isAlphanum hP
      (by decide) (by decide) (by decide) (by decide) (by decide) (by decide)
  have hc1 : ¬ ((jsIncludes (("https://www.dailymotion.com/embed/video/".data) ++
      (vid ++ ("?ui-logo=0".data))) ("youtube.com".data) ||
      jsIncludes (("https://www.dailymotion.com/embed/video/".data) ++
      (vid ++ ("?ui-logo=0".data))) ("youtu.be".data)) = true) := by
    rw [hy1, hy2]; decide
  have hc2 : ¬ (jsIncludes (("https://www.dailymotion.com/embed/video/".data) ++
      (vid ++ ("?ui-logo=0".data))) ("twitch.tv".data) = true) := by
    rw [hntw]; decide
  have hc3 : ¬ (jsIncludes (("https://www.dailymotion.com/embed/video/".data) ++
      (vid ++ ("?ui-logo=0".data))) ("vimeo.com".data) = true) := by
    rw [hnvm]; decide
  have hcd1 : ¬ (jsIncludes (("https://www.dailymotion.com/embed/video/".data) ++
      (vid ++ ("?ui-logo=0".data))) ("dailymotion.com/video/".data) = true) := by
    rw [hndv]; decide
  have hcd2 : ¬ (jsIncludes (("https://www.dailymotion.com/embed/video/".data) ++
      (vid ++ ("?ui-logo=0".data))) ("dai.ly/".data) = true) := by
    rw [hndl]; decide
  rw [hassoc]
  unfold convertToEmbedUrl
  rw [if_neg hc1, if_neg hc2, if_neg hc3, if_pos (by rw [hdm]; simp)]
  unfold convertDailyMotionUrl
  rw [if_neg hcd1, if_neg hcd2]
  simp

theorem convertToEmbedUrl_yt1 (vid : Str) (hne : vid ≠ [])
    (hP : ∀ c ∈ vid, c.isAlphanum = true) :
    convertToEmbedUrl hostName (("https://youtube.com/watch?v=".data) ++ vid) false =
      .ok ((("https://www.youtube.com/embed/".data) ++ vid) ++
        ("?rel=0&modestbranding=1&controls=1&showinfo=0".data)) := by
  have hg0 : jsIncludes (("https://youtube.com/watch?v=".data) ++ vid)
      ("youtube.com".data) = true :=
    jsIncludes_true_of_matchAt _ _ 8
      ((matchAt_append_inner ("https://youtube.com/watch?v=".data) vid
        ("youtube.com".data) 8 (by decide)).mpr (by decide))
  have hg1 : jsIncludes (("https://youtube.com/watch?v=".data) ++ vid)
      ("youtube.com/watch?v=".data) = true :=
    jsIncludes_true_of_matchAt _ _ 8
      ((matchAt_append_inner ("https://youtube.com/watch?v=".data) vid
        ("youtube.com/watch?v=".data) 8 (by decide)).mpr (by decide))
  have hcat : ("https://youtube.com/watch?v=".data : Str) =
      ("https://youtube.com/watch?".data) ++ ("v=".data) := by decide
  have hsplit1 : jsSplit (("https://youtube.com/watch?v=".data) ++ vid) ("v=".data) =
      ["https://youtube.com/watch?".data, vid] := by
    calc jsSplit (("https://youtube.com/watch?v=".data) ++ vid) ("v=".data)
        = jsSplit (("https://youtube.com/watch?".data) ++ (("v=".data) ++ vid))
            ("v=".data) := by rw [hcat, List.append_assoc]
      _ = ("https://youtube.com/watch?".data) :: jsSplit vid ("v=".data) :=
          jsSplit_append_first_concrete _ _ _ (by decide) (by decide)
      _ = ["https://youtube.com/watch?".data, vid] := by
          rw [jsSplit_single vid ("v=".data) (by decide)
            (jsIncludes_false_of_allP vid ("v=".data) Char.isAlphanum hP (by decide))]
  have hsplit2 : jsSplit vid ("&".data) = [vid] :=
    jsSplit_single vid ("&".data) (by decide)
      (jsIncludes_false_of_allP vid ("&".data) Char.isAlphanum hP (by decide))
  unfold convertToEmbedUrl
  rw [if_pos (by rw [hg0]; simp)]
  unfold convertYouTubeUrl
  rw [if_pos hg1, hsplit1]
  rw [show jsGetD ["https://youtube.com/watch?".data, vid] 1 = vid from rfl]
  rw [hsplit2]
  rw [show jsGetD [vid] 0 = vid from rfl]
  dsimp only
  rw [if_neg hne]
  rfl

theorem convertToEmbedUrl_yt2 (vid : Str) (hne : vid ≠ [])
    (hP : ∀ c ∈ vid, c.isAlphanum = true) :
    convertToEmbedUrl hostName
      ((("https://www.youtube.com/embed/".data) ++ vid) ++
        ("?rel=0&modestbranding=1&controls=1&showinfo=0".data)) false =
    .ok ((("https://www.youtube.com/embed/".data) ++ vid) ++
      ("?rel=0&modestbranding=1&controls=1&showinfo=0".data)) := by
  have hlenA : ("https://www.youtube.com/embed/".data : Str).length = 30 := by decide
  have hassoc : (("https://www.youtube.com/embed/".data) ++ vid) ++
      ("?rel=0&modestbranding=1&controls=1&showinfo=0".data) =
      ("https://www.youtube.com/embed/".data) ++
        (vid ++ ("?rel=0&modestbranding=1&controls=1&showinfo=0".data)) :=
    List.append_assoc _ _ _
  have hg0 : jsIncludes ((("https://www.youtube.com/embed/".data) ++ vid) ++
      ("?rel=0&modestbranding=1&controls=1&showinfo=0".data)) ("youtube.com".data) = true := by
    apply jsIncludes_true_of_matchAt _ _ 12
    apply (matchAt_append_inner (("https://www.youtube.com/embed/".data) ++ vid)
      ("?rel=0&modestbranding=1&controls=1&showinfo=0".data) ("youtube.com".data) 12
      (by have h1 : ("youtube.com".data : Str).length = 11 := by decide
          simp only [List.length_append, hlenA, h1]; omega)).mpr
    exact (matchAt_append_inner ("https://www.youtube.com/embed/".data) vid
      ("youtube.com".data) 12 (by decide)).mpr (by decide)
  have hgw : jsIncludes ((("https://www.youtube.com/embed/".data) ++ vid) ++
      ("?rel=0&modestbranding=1&controls=1&showinfo=0".data))
      ("youtube.com/watch?v=".data) = false := by
    rw [hassoc]
    exact jsIncludes_false_shape _ vid _ _ Char.isAlphanum hP
      (by decide) (by decide) (by decide) (by decide) (by decide) (by decide)
  have hgb : jsIncludes ((("https://www.youtube.com/embed/".data) ++ vid) ++
      ("?rel=0&modestbranding=1&controls=1&showinfo=0".data))
      ("youtu.be/".data) = false := by
    rw [hassoc]
    exact jsIncludes_false_shape _ vid _ _ Char.isAlphanum hP
      (by decide) (by decide) (by decide) (by decide) (by decide) (by decide)
  have hgl : jsIncludes ((("https://www.youtube.com/embed/".data) ++ vid) ++
      ("?rel=0&modestbranding=1&controls=1&showinfo=0".data))
      ("youtube.com/live/".data) = false := by
    rw [hassoc]
    exact jsIncludes_false_shape _ vid _ _ Char.isAlphanum hP
      (by decide) (by decide) (by decide) (by decide) (by decide) (by decide)
  have hge : jsIncludes ((("https://www.youtube.com/embed/".data) ++ vid) ++
      ("?rel=0&modestbranding=1&controls=1&showinfo=0".data))
      ("youtube.com/embed/".data) = true := by
    apply jsIncludes_true_of_matchAt _ _ 12
    apply (matchAt_append_inner (("https://www.youtube.com/embed/".data) ++ vid)
      ("?rel=0&modestbranding=1&controls=1&showinfo=0".data) ("youtube.com/embed/".data) 12
      (by have h1 : ("youtube.com/embed/".data : Str).length = 18 := by decide
          simp only [List.length_append, hlenA, h1]; omega)).mpr
    exact (matchAt_append_inner ("https://www.youtube.com/embed/".data) vid
      ("youtube.com/embed/".data) 12 (by decide)).mpr (by decide)
  have hniE : jsIncludes (vid ++ ("?rel=0&modestbranding=1&controls=1&showinfo=0".data))
      ("embed/".data) = false := by
    have h := jsIncludes_false_shape [] vid
      ("?rel=0&modestbranding=1&controls=1&showinfo=0".data) ("embed/".data)
      Char.isAlphanum hP (by decide) (by decide) (by decide) (by decide) (by decide) (by decide)
    simpa using h
  have hcatA : ("https://www.youtube.com/embed/".data : Str) =
      ("https://www.youtube.com/".data) ++ ("embed/".data) := by decide
  have hsplitE : jsSplit ((("https://www.youtube.com/embed/".data) ++ vid) ++
      ("?rel=0&modestbranding=1&controls=1&showinfo=0".data)) ("embed/".data) =
      ["https://www.youtube.com/".data,
       vid ++ ("?rel=0&modestbranding=1&controls=1&showinfo=0".data)] := by
    calc jsSplit ((("https://www.youtube.com/embed/".data) ++ vid) ++
          ("?rel=0&modestbranding=1&controls=1&showinfo=0".data)) ("embed/".data)
        = jsSplit (("https://www.youtube.com/".data) ++ (("embed/".data) ++
            (vid ++ ("?rel=0&modestbranding=1&controls=1&showinfo=0".data))))
            ("embed/".data) := by rw [hassoc, hcatA, List.append_assoc]
      _ = ("https://www.youtube.com/".data) :: jsSplit
            (vid ++ ("?rel=0&modestbranding=1&controls=1&showinfo=0".data))
            ("embed/".data) :=
          jsSplit_append_first_concrete _ _ _ (by decide) (by decide)
      _ = ["https://www.youtube.com/".data,
           vid ++ ("?rel=0&modestbranding=1&controls=1&showinfo=0".data)] := by
          rw [jsSplit_single _ _ (by decide) hniE]
  have hB2cat : ("?rel=0&modestbranding=1&controls=1&showinfo=0".data : Str) =
      ['?'] ++ ("rel=0&modestbranding=1&controls=1&showinfo=0".data) := by decide
  have hsplitQ : jsSplit (vid ++ ("?rel=0&modestbranding=1&controls=1&showinfo=0".data))
      ("?".data) =
      vid :: jsSplit ("rel=0&modestbranding=1&controls=1&showinfo=0".data) ("?".data) := by
    rw [hB2cat, show ("?".data : Str) = ['?'] from rfl]
    exact jsSplit_mid_char vid _ '?' Char.isAlphanum hP (by decide)
  have hnw : ¬ (jsIncludes ((("https://www.youtube.com/embed/".data) ++ vid) ++
      ("?rel=0&modestbranding=1&controls=1&showinfo=0".data))
      ("youtube.com/watch?v=".data) = true) := by rw [hgw]; decide
  have hnb : ¬ (jsIncludes ((("https://www.youtube.com/embed/".data) ++ vid) ++
      ("?rel=0&modestbranding=1&controls=1&showinfo=0".data))
      ("youtu.be/".data) = true) := by rw [hgb]; decide
  have hnl : ¬ (jsIncludes ((("https://www.youtube.com/embed/".data) ++ vid) ++
      ("?rel=0&modestbranding=1&controls=1&showinfo=0".data))
      ("youtube.com/live/".data) = true) := by rw [hgl]; decide
  unfold convertToEmbedUrl
  rw [if_pos (by rw [hg0]; simp)]
  unfold convertYouTubeUrl
  rw [if_neg hnw, if_neg hnb, if_neg hnl, if_pos hge,
      hsplitE, jsGetD_cons_one, hsplitQ, jsGetD_cons_zero]
  dsimp only
  rw [if_neg hne]
  rfl

/-- C7: for recognized platform URLs the converter produces a URL containing the
platform's embed path segment, but re-applying it is idempotent only for
YouTube; the Twitch and DailyMotion embed URLs fail re-extraction with the
source's error messages, and the Vimeo embed URL re-extracts the path literal
"video" instead of the original id. -/
theorem c7_amended_embed_roundtrip (vid ch : Str) (hv : vid ≠ []) (hc : ch ≠ [])
    (hPv : ∀ c ∈ vid, c.isAlphanum = true) (hPc : ∀ c ∈ ch, c.isAlphanum = true) :
    (convertToEmbedUrl hostName (("https://youtube.com/watch?v=".data) ++ vid) false =
      .ok ((("https://www.youtube.com/embed/".data) ++ vid) ++
        ("?rel=0&modestbranding=1&controls=1&showinfo=0".data))) ∧
    (jsIncludes ((("https://www.youtube.com/embed/".data) ++ vid) ++
      ("?rel=0&modestbranding=1&controls=1&showinfo=0".data))
      ("youtube.com/embed/".data) = true) ∧
    (convertToEmbedUrl hostName
      ((("https://www.youtube.com/embed/".data) ++ vid) ++
        ("?rel=0&modestbranding=1&controls=1&showinfo=0".data)) false =
      .ok ((("https://www.youtube.com/embed/".data) ++ vid) ++
        ("?rel=0&modestbranding=1&controls=1&showinfo=0".data))) ∧
    (convertToEmbedUrl hostName (("https://twitch.tv/".data) ++ ch) false =
      .ok ((("https://player.twitch.tv/?channel=".data) ++ ch ++
        ("&parent=".data)) ++ hostName)) ∧
    (jsIncludes ((("https://player.twitch.tv/?channel=".data) ++ ch ++
      ("&parent=".data)) ++ hostName) ("player.twitch.tv/".data) = true) ∧
    (convertToEmbedUrl hostName
      ((("https://player.twitch.tv/?channel=".data) ++ ch ++ ("&parent=".data)) ++ hostName)
      false = .error ("Could not extract Twitch channel".data)) ∧
    (convertToEmbedUrl hostName (("https://vimeo.com/".data) ++ vid) false =
      .ok (("https://player.vimeo.com/video/".data) ++ vid ++
        ("?title=0&byline=0&portrait=0".data))) ∧
    (jsIncludes (("https://player.vimeo.com/video/".data) ++ vid ++
      ("?title=0&byline=0&portrait=0".data)) ("player.vimeo.com/video/".data) = true) ∧
    (convertToEmbedUrl hostName
      (("https://player.vimeo.com/video/".data) ++ vid ++
        ("?title=0&byline=0&portrait=0".data)) false =
      .ok (("https://player.vimeo.com/video/".data) ++ ("video".data) ++
        ("?title=0&byline=0&portrait=0".data))) ∧
    (convertToEmbedUrl hostName (("https://www.dailymotion.com/video/".data) ++ vid) false =
      .ok (("https://www.dailymotion.com/embed/video/".data) ++ vid ++
        ("?ui-logo=0".data))) ∧
    (jsIncludes (("https://www.dailymotion.com/embed/video/".data) ++ vid ++
      ("?ui-logo=0".data)) ("dailymotion.com/embed/video/".data) = true) ∧
    (convertToEmbedUrl hostName
      (("https://www.dailymotion.com/embed/video/".data) ++ vid ++ ("?ui-logo=0".data))
      false = .error ("Could not extract DailyMotion video ID".data)) := by
  refine ⟨convertToEmbedUrl_yt1 vid hv hPv, ?_, convertToEmbedUrl_yt2 vid hv hPv,
    convertToEmbedUrl_tw1 ch hc hPc, ?_, convertToEmbedUrl_tw2 ch hPc,
    convertToEmbedUrl_vm1 vid hv hPv, ?_, convertToEmbedUrl_vm2 vid hPv,
    convertToEmbedUrl_dm1 vid hv hPv, ?_, convertToEmbedUrl_dm2 vid hPv⟩
  · exact jsIncludes_true_of_matchAt _ _ 12
      ((matchAt_append_inner (("https://www.youtube.com/embed/".data) ++ vid)
        ("?rel=0&modestbranding=1&controls=1&showinfo=0".data)
        ("youtube.com/embed/".data) 12
        (by
          have h1 : ("https://www.youtube.com/embed/".data : Str).length = 30 := by decide
          have h2 : ("youtube.com/embed/".data : Str).length = 18 := by decide
          simp only [List.length_append, h1, h2]
          omega)).mpr
        ((matchAt_append_inner ("https://www.youtube.com/embed/".data) vid
          ("youtube.com/embed/".data) 12 (by decide)).mpr (by decide)))
  · rw [List.append_assoc, List.append_assoc,
      show (("&parent=".data : Str) ++ hostName) = ("&parent=localhost".data) from by decide]
    exact jsIncludes_true_of_matchAt _ _ 8
      ((matchAt_append_inner ("https://player.twitch.tv/?channel=".data)
        (ch ++ ("&parent=localhost".data)) ("player.twitch.tv/".data) 8
        (by decide)).mpr (by decide))
  · rw [List.append_assoc]
    exact jsIncludes_true_of_matchAt _ _ 8
      ((matchAt_append_inner ("https://player.vimeo.com/video/".data)
        (vid ++ ("?title=0&byline=0&portrait=0".data)) ("player.vimeo.com/video/".data) 8
        (by decide)).mpr (by decide))
  · rw [List.append_assoc]
    exact jsIncludes_true_of_matchAt _ _ 12
      ((matchAt_append_inner ("https://www.dailymotion.com/embed/video/".data)
        (vid ++ ("?ui-logo=0".data)) ("dailymotion.com/embed/video/".data) 12
        (by decide)).mpr (by decide))

theorem c7_amended_embed_roundtrip_witness :
    (("abc123".data : Str) ≠ []) ∧ (("chan1".data : Str) ≠ []) ∧
    convertToEmbedUrl hostName (("https://vimeo.com/".data) ++ ("abc123".data)) false =
      .ok (("https://player.vimeo.com/video/".data) ++ ("abc123".data) ++
        ("?title=0&byline=0&portrait=0".data)) :=
  ⟨by decide, by decide,
   (c7_amended_embed_roundtrip ("abc123".data) ("chan1".data) (by decide) (by decide)
     (by decide) (by decide)).2.2.2.2.2.2.1⟩

-- ===== C1 parser characterization =====

theorem takeWhile_all_eq (p : Char → Bool) (l : Str) (h : ∀ x ∈ l, p x = true) :
    l.takeWhile p = l := by
  induction l with
  | nil => rfl
  | cons c t ih =>
    have hc := h c (List.mem_cons_self c t)
    have ht := ih (fun x hx => h x (List.mem_cons_of_mem c hx))
    simp [List.takeWhile_cons, hc, ht]

theorem dropWhile_all_eq (p : Char → Bool) (l : Str) (h : ∀ x ∈ l, p x = true) :
    l.dropWhile p = [] := by
  induction l with
  | nil => rfl
  | cons c t ih =>
    have hc := h c (List.mem_cons_self c t)
    have ht := ih (fun x hx => h x (List.mem_cons_of_mem c hx))
    simp [List.dropWhile_cons, hc, ht]

theorem dropWhile_idem (p : Char → Bool) (l : Str) :
    (l.dropWhile p).dropWhile p = l.dropWhile p := by
  induction l with
  | nil => rfl
  | cons c t ih =>
    cases hc : p c with
    | true => simp [List.dropWhile_cons, hc, ih]
    | false => simp [List.dropWhile_cons, hc]

theorem jsTrim_dropWhile_eq (b : Str) :
    jsTrim (b.dropWhile jsIsSpace) = jsTrim b := by
  unfold jsTrim
  rw [dropWhile_idem]

theorem drop_takeWhile_length (p : Char → Bool) (l : Str) :
    l.drop (l.takeWhile p).length = l.dropWhile p := by
  induction l with
  | nil => rfl
  | cons c t ih =>
    cases hc : p c with
    | true => simp [List.takeWhile_cons, List.dropWhile_cons, hc, ih]
    | false => simp [List.takeWhile_cons, List.dropWhile_cons, hc]

theorem paramsCapture_spec (b : Str) (hnl : '\n' ∉ b) (hne : b ≠ []) :
    ∃ cap, paramsCapture b = some cap ∧ jsTrim cap = jsTrim b := by
  unfold paramsCapture
  by_cases hws : (b.takeWhile jsIsSpace).length < b.length
  · refine ⟨(b.drop (b.takeWhile jsIsSpace).length).takeWhile (· ≠ '\n'), ?_, ?_⟩
    · rw [if_pos hws]
    · rw [drop_takeWhile_length]
      rw [takeWhile_all_eq _ _ (fun x hx => by
        have hxb : x ∈ b := (List.dropWhile_sublist jsIsSpace).mem hx
        simp
        intro hq
        exact hnl (hq ▸ hxb))]
      exact jsTrim_dropWhile_eq b
  · have htk : b.takeWhile jsIsSpace = b := by
      have hpre : b.takeWhile jsIsSpace <+: b := List.takeWhile_prefix jsIsSpace
      exact hpre.eq_of_length (by
        have := hpre.length_le
        omega)
    have hall : ∀ x ∈ b, jsIsSpace x = true := by
      intro x hx
      exact List.mem_takeWhile_imp (htk ▸ hx)
    cases hbr : b.reverse with
    | nil => exact absurd (List.reverse_eq_nil_iff.mp hbr) hne
    | cons c r =>
      have hcb : c ∈ b := List.mem_reverse.mp (hbr ▸ List.mem_cons_self c r)
      have hcn : decide (c = '\n') = false := by
        apply decide_eq_false
        intro hq
        exact hnl (hq ▸ hcb)
      refine ⟨[c], ?_, ?_⟩
      · rw [if_neg hws]
        unfold lastNonNlHead
        rw [hbr]
        rw [List.dropWhile_cons, hcn]
        rfl
      · have hcs := hall c hcb
        have h1 : jsTrim [c] = [] := by
          unfold jsTrim
          rw [List.dropWhile_cons, hcs]
          rfl
        have h2 : jsTrim b = [] := by
          unfold jsTrim
          rw [dropWhile_all_eq _ _ hall]
          rfl
        rw [h1, h2]

theorem findParams_none_iff (s : Str) (hnl : '\n' ∉ s) :
    findParams s = none ↔ ∀ a b, s = (a ++ ("--".data)) ++ b → b = [] := by
  induction s with
  | nil =>
    constructor
    · intro _ a b h
      have hl := congrArg List.length h
      simp only [List.length_nil, List.length_append] at hl
      have h2 : (("--".data : Str)).length = 2 := rfl
      rw [h2] at hl
      exact List.eq_nil_of_length_eq_zero (by omega)
    · intro _
      rfl
  | cons c t ih =>
    have hnlt : '\n' ∉ t := fun hm => hnl (List.mem_cons_of_mem c hm)
    by_cases h2 : (c :: t).take 2 = ("--".data)
    · cases t with
      | nil =>
        have hl := congrArg List.length h2
        rw [show (("--".data : Str)).length = 2 from rfl] at hl
        simp at hl
      | cons d t' =>
        have hc : c = '-' := by
          have := congrArg (fun l => l.take 1) h2
          simpa using this
        have hd : d = '-' := by
          have := congrArg (fun l => l.drop 1) h2
          simpa using this
        subst hc
        subst hd
        by_cases hb : t' = []
        · subst hb
          constructor
          · intro _ a b heq
            have hl := congrArg List.length heq
            simp only [List.length_cons, List.length_nil, List.length_append] at hl
            exact List.eq_nil_of_length_eq_zero (by omega)
          · intro _
            rfl
        · obtain ⟨cap, hcap, _⟩ := paramsCapture_spec t'
            (fun hm => hnl (List.mem_cons_of_mem _ (List.mem_cons_of_mem _ hm))) hb
          have hsome : findParams ('-' :: '-' :: t') = some cap := by
            simp only [findParams]
            rw [if_pos (by rfl)]
            rw [show (('-' :: '-' :: t').drop 2) = t' from rfl]
            rw [hcap]
          constructor
          · intro h
            rw [hsome] at h
            cases h
          · intro hall
            exact absurd (hall [] t' rfl) hb
    · have hstep : findParams (c :: t) = findParams t := by
        simp only [findParams]
        rw [if_neg h2]
      rw [hstep, ih hnlt]
      constructor
      · intro hall a b heq
        cases a with
        | nil =>
          exact absurd (by rw [heq]; rfl) h2
        | cons x a' =>
          refine hall a' b ?_
          have hx := congrArg List.tail heq
          simpa [List.cons_append] using hx
      · intro hall a b heq
        refine hall (c :: a) b ?_
        rw [heq]
        simp [List.cons_append]

theorem findParams_leftmost : ∀ (a b : Str), '\n' ∉ ((a ++ ("--".data)) ++ b) → b ≠ [] →
    (∀ j, j < a.length → ¬ MatchAt ((a ++ ("--".data)) ++ b) ("--".data) j) →
    ∃ cap, findParams ((a ++ ("--".data)) ++ b) = some cap ∧ jsTrim cap = jsTrim b := by
  intro a
  induction a with
  | nil =>
    intro b hnl hb _
    have hnlb : '\n' ∉ b := fun hm => hnl (by simp [hm])
    obtain ⟨cap, h1, h2⟩ := paramsCapture_spec b hnlb hb
    refine ⟨cap, ?_, h2⟩
    show findParams ('-' :: '-' :: b) = some cap
    simp only [findParams]
    rw [if_pos (by rfl)]
    rw [show (('-' :: '-' :: b).drop 2) = b from rfl]
    rw [h1]
  | cons x a' ih =>
    intro b hnl hb hlm
    have hshape : (((x :: a') ++ ("--".data)) ++ b) = x :: ((a' ++ ("--".data)) ++ b) := by
      simp [List.cons_append]
    rw [hshape] at hnl hlm ⊢
    have h0 : ¬ MatchAt (x :: ((a' ++ ("--".data)) ++ b)) ("--".data) 0 := hlm 0 (by simp)
    have h2 : ¬ ((x :: ((a' ++ ("--".data)) ++ b)).take 2 = ("--".data)) := by
      intro hq
      refine h0 ?_
      unfold MatchAt
      rw [List.drop_zero]
      exact hq
    have hstep : findParams (x :: ((a' ++ ("--".data)) ++ b)) =
        findParams ((a' ++ ("--".data)) ++ b) := by
      simp only [findParams]
      rw [if_neg h2]
    rw [hstep]
    refine ih b (fun hm => hnl (List.mem_cons_of_mem x hm)) hb ?_
    intro j hj hm
    refine hlm (j + 1) (by simp [List.length_cons]; omega) ?_
    unfold MatchAt at hm ⊢
    rw [List.drop_succ_cons]
    exact hm

theorem specActionAt_cons_succ (c : Char) (t : Str) (j : Nat) :
    specActionAt (c :: t) (j + 1) ↔ specActionAt t j := by
  unfold specActionAt
  rw [List.drop_succ_cons]

theorem specActionAt_nil (j : Nat) : ¬ specActionAt [] j := by
  unfold specActionAt
  rw [List.drop_nil]
  intro h
  exact absurd h.1 (by decide)

theorem specActionAt_zero (s : Str) :
    specActionAt s 0 ↔
      (toLowerStr (s.take 3) = ("ex.".data) ∧ headIsWord (s.drop 3) = true) := by
  unfold specActionAt
  rw [List.drop_zero]

theorem findAction_none_iff (s : Str) :
    findAction s = none ↔ ∀ j, ¬ specActionAt s j := by
  induction s with
  | nil =>
    constructor
    · intro _ j
      exact specActionAt_nil j
    · intro _
      rfl
  | cons c t ih =>
    by_cases hat0 : specActionAt (c :: t) 0
    · rcases (specActionAt_zero (c :: t)).mp hat0 with ⟨h1, h2⟩
      have hc : (decide (toLowerStr ((c :: t).take 3) = ("ex.".data)) &&
          headIsWord ((c :: t).drop 3)) = true := by
        rw [decide_eq_true h1, h2]
        rfl
      have hsome : findAction (c :: t) =
          some (toLowerStr (((c :: t).drop 3).takeWhile isWordChar)) := by
        simp only [findAction]
        rw [if_pos hc]
      constructor
      · intro h
        rw [hsome] at h
        cases h
      · intro hall
        exact absurd hat0 (hall 0)
    · have hc : ¬ ((decide (toLowerStr ((c :: t).take 3) = ("ex.".data)) &&
          headIsWord ((c :: t).drop 3)) = true) := fun hq =>
        hat0 ((specActionAt_zero _).mpr (by
          rw [Bool.and_eq_true] at hq
          exact ⟨of_decide_eq_true hq.1, hq.2⟩))
      have hstep : findAction (c :: t) = findAction t := by
        simp only [findAction]
        rw [if_neg hc]
      rw [hstep, ih]
      constructor
      · intro hall j
        cases j with
        | zero => exact hat0
        | succ j =>
          rw [specActionAt_cons_succ]
          exact hall j
      · intro hall j
        have hq := hall (j + 1)
        rw [specActionAt_cons_succ] at hq
        exact hq

theorem findAction_leftmost : ∀ (j : Nat) (s : Str), specActionAt s j →
    (∀ i, i < j → ¬ specActionAt s i) →
    findAction s = some (toLowerStr (((s.drop j).drop 3).takeWhile isWordChar)) := by
  intro j
  induction j with
  | zero =>
    intro s hj _
    cases s with
    | nil => exact absurd hj (specActionAt_nil 0)
    | cons c t =>
      rcases (specActionAt_zero (c :: t)).mp hj with ⟨h1, h2⟩
      have hc : (decide (toLowerStr ((c :: t).take 3) = ("ex.".data)) &&
          headIsWord ((c :: t).drop 3)) = true := by
        rw [decide_eq_true h1, h2]
        rfl
      simp only [findAction]
      rw [if_pos hc, List.drop_zero]
  | succ j ih =>
    intro s hj hlm
    cases s with
    | nil => exact absurd hj (specActionAt_nil (j + 1))
    | cons c t =>
      have hat0 : ¬ specActionAt (c :: t) 0 := hlm 0 (Nat.succ_pos j)
      have hc : ¬ ((decide (toLowerStr ((c :: t).take 3) = ("ex.".data)) &&
          headIsWord ((c :: t).drop 3)) = true) := fun hq =>
        hat0 ((specActionAt_zero _).mpr (by
          rw [Bool.and_eq_true] at hq
          exact ⟨of_decide_eq_true hq.1, hq.2⟩))
      have hstep : findAction (c :: t) = findAction t := by
        simp only [findAction]
        rw [if_neg hc]
      rw [hstep, List.drop_succ_cons]
      exact ih t ((specActionAt_cons_succ c t j).mp hj)
        (fun i hi hq => hlm (i + 1) (by omega) ((specActionAt_cons_succ c t i).mpr hq))

theorem matchAgent_none_iff (s : Str) : matchAgent s = none ↔ ¬ specAgentOk s := by
  unfold matchAgent specAgentOk
  split_ifs with h1 h2 h3
  · simp [h1]
  · simp [h2]
  · simp [h3]
  · simp [h1, h2, h3]

theorem matchAgent_some_cases (s n : Str) (h : matchAgent s = some n) :
    (toLowerStr (s.take 6) = ("raitha".data) ∧ n = ("raitha".data)) ∨
    (toLowerStr (s.take 4) = ("rena".data) ∧ n = ("rena".data)) ∨
    (toLowerStr (s.take 4) = ("leaf".data) ∧ n = ("leaf".data)) := by
  unfold matchAgent at h
  split_ifs at h with h1 h2 h3
  · injection h with h'
    exact Or.inl ⟨h1, h'.symm⟩
  · injection h with h'
    exact Or.inr (Or.inl ⟨h2, h'.symm⟩)
  · injection h with h'
    exact Or.inr (Or.inr ⟨h3, h'.symm⟩)

theorem matchAgent_isSome_of (s : Str) (h : specAgentOk s) : ∃ n, matchAgent s = some n := by
  cases hm : matchAgent s with
  | none => exact absurd h ((matchAgent_none_iff s).mp hm)
  | some n => exact ⟨n, rfl⟩

theorem parseCommand_ok_inv (line : Str) (pc : ParsedCommand)
    (h : parseCommand line = .ok pc) :
    matchAgent line = some pc.iiName ∧ findAction line = some pc.action ∧
    ∃ p, findParams line = some p ∧ pc.params = jsTrim p := by
  unfold parseCommand at h
  cases hA : matchAgent line with
  | none =>
    rw [hA] at h
    cases h
  | some n =>
    rw [hA] at h
    cases hAc : findAction line with
    | none =>
      rw [hAc] at h
      cases h
    | some act =>
      rw [hAc] at h
      cases hP : findParams line with
      | none =>
        rw [hP] at h
        cases h
      | some p =>
        rw [hP] at h
        injection h with h'
        subst h'
        exact ⟨rfl, rfl, p, rfl, rfl⟩

/-- C1: a line with no newline is accepted exactly when it starts with one of
the three agent names case-insensitively, contains Ex.<identifier>, and
contains a double dash with a non-empty remainder; on success the agent is the
matched name lower-cased, the action is the lower-cased word run at the
leftmost Ex. occurrence, and the params are the trimmed remainder after the
first double dash even when that remainder contains further double dashes; a
line missing a part fails with the corresponding grammar error, and
parseAndExecute propagates the parse error without dispatching. -/
theorem c1_parse_triple (line : Str) (hnl : '\n' ∉ line) :
    ((∃ pc, parseCommand line = .ok pc) ↔
      (specAgentOk line ∧ specActionOk line ∧ specParamsOk line)) ∧
    (∀ pc, parseCommand line = .ok pc →
      ((toLowerStr (line.take 6) = ("raitha".data) ∧ pc.iiName = ("raitha".data)) ∨
       (toLowerStr (line.take 4) = ("rena".data) ∧ pc.iiName = ("rena".data)) ∨
       (toLowerStr (line.take 4) = ("leaf".data) ∧ pc.iiName = ("leaf".data)))) ∧
    (∀ pc j, parseCommand line = .ok pc → specActionAt line j →
      (∀ i, i < j → ¬ specActionAt line i) →
      pc.action = toLowerStr (((line.drop j).drop 3).takeWhile isWordChar)) ∧
    (∀ pc a b, parseCommand line = .ok pc → line = (a ++ ("--".data)) ++ b → b ≠ [] →
      (∀ j, j < a.length → ¬ MatchAt line ("--".data) j) →
      pc.params = jsTrim b) ∧
    (¬ specAgentOk line →
      parseCommand line = .error ("Command must start with II name".data)) ∧
    (specAgentOk line → ¬ specActionOk line →
      parseCommand line = .error ("Invalid action format. Use: Ex.[action]".data)) ∧
    (specAgentOk line → specActionOk line → ¬ specParamsOk line →
      parseCommand line = .error ("Missing parameters. Use: -- [params]".data)) ∧
    (∀ e fuel st, parseCommand line = .error e →
      parseAndExecute (fuel + 1) st line = .error e) := by
  refine ⟨?_, ?_, ?_, ?_, ?_, ?_, ?_, ?_⟩
  · constructor
    · rintro ⟨pc, hpc⟩
      obtain ⟨hA, hAc, p, hP, _⟩ := parseCommand_ok_inv line pc hpc
      refine ⟨?_, ?_, ?_⟩
      · by_contra hq
        rw [(matchAgent_none_iff line).mpr hq] at hA
        cases hA
      · by_contra hq
        rw [(findAction_none_iff line).mpr (fun j hj => hq ⟨j, hj⟩)] at hAc
        cases hAc
      · by_contra hq
        rw [(findParams_none_iff line hnl).mpr (fun a b heq => by
          by_contra hbne
          exact hq ⟨a, b, heq, hbne⟩)] at hP
        cases hP
    · rintro ⟨hA, hAc, hP⟩
      obtain ⟨n, hn⟩ := matchAgent_isSome_of line hA
      obtain ⟨j, hj⟩ := hAc
      obtain ⟨a, b, heq, hbne⟩ := hP
      cases hAc2 : findAction line with
      | none => exact absurd hj ((findAction_none_iff line).mp hAc2 j)
      | some act =>
        cases hP2 : findParams line with
        | none => exact absurd ((findParams_none_iff line hnl).mp hP2 a b heq) hbne
        | some p =>
          refine ⟨⟨n, act, jsTrim p⟩, ?_⟩
          unfold parseCommand
          rw [hn, hAc2, hP2]
  · intro pc hpc
    obtain ⟨hA, _, _⟩ := parseCommand_ok_inv line pc hpc
    exact matchAgent_some_cases line pc.iiName hA
  · intro pc j hpc hj hlm
    obtain ⟨_, hAc, _⟩ := parseCommand_ok_inv line pc hpc
    rw [findAction_leftmost j line hj hlm] at hAc
    injection hAc with h'
    exact h'.symm
  · intro pc a b hpc heq hbne hlm
    obtain ⟨_, _, p, hP, hparams⟩ := parseCommand_ok_inv line pc hpc
    obtain ⟨cap, hcap, htrim⟩ := findParams_leftmost a b (heq ▸ hnl) hbne (by
      intro j hj hm
      exact hlm j hj (by rw [heq]; exact hm))
    rw [heq, hcap] at hP
    injection hP with h'
    rw [hparams, ← h']
    exact htrim
  · intro hq
    unfold parseCommand
    rw [(matchAgent_none_iff line).mpr hq]
  · intro hA hq
    obtain ⟨n, hn⟩ := matchAgent_isSome_of line hA
    unfold parseCommand
    rw [hn, (findAction_none_iff line).mpr (fun j hj => hq ⟨j, hj⟩)]
  · intro hA hAc hq
    obtain ⟨n, hn⟩ := matchAgent_isSome_of line hA
    obtain ⟨j, hj⟩ := hAc
    cases hfa : findAction line with
    | none => exact absurd hj ((findAction_none_iff line).mp hfa j)
    | some act =>
      unfold parseCommand
      rw [hn, hfa, (findParams_none_iff line hnl).mpr (fun a b heq => by
        by_contra hbne
        exact hq ⟨a, b, heq, hbne⟩)]
  · intro e fuel st h
    simp only [parseAndExecute]
    rw [h]

theorem c1_parse_triple_witness :
    ('\n' ∉ ("Raitha Ex.Watch -- x --y z".data : Str)) ∧
    parseCommand ("Raitha Ex.Watch -- x --y z".data) =
      .ok ⟨("raitha".data), ("watch".data), ("x --y z".data)⟩ ∧
    (⟨("raitha".data), ("watch".data), ("x --y z".data)⟩ : ParsedCommand).params =
      jsTrim (" x --y z".data) :=
  ⟨by decide, by decide,
   (c1_parse_triple ("Raitha Ex.Watch -- x --y z".data) (by decide)).2.2.2.1
     ⟨("raitha".data), ("watch".data), ("x --y z".data)⟩
     ("Raitha Ex.Watch ".data) (" x --y z".data)
     (by decide) (by decide) (by decide) (by decide)⟩
